import Mathlib

/-!
Verification of the vibemulator NES emulator core against its specification.

Shallow embedding of the Go sources: bytes are `Nat` reduced mod 256 where the
Go code works on `byte`, 16-bit quantities are reduced mod 65536 where the Go
code works on `uint16`, byte-addressed memories are functions `Nat → Nat`, and
stateful methods become functions from state to state.  Each definition is a
direct translation of the correspondingly named Go function; the file or line
origin is given in its doc comment.
-/

/-- Byte-addressed memory, as used by the mock bus of the nestest harness
(src/nestest/main.go): a byte array indexed by address. -/
def Mem : Type := Nat → Nat

/-- Read a byte from memory (Go array access on a byte array; values are
reduced mod 256 to reflect the byte element type). -/
def memRead (m : Mem) (addr : Nat) : Nat := m addr % 256

/-- Write a byte to memory (Go array assignment). -/
def memWrite (m : Mem) (addr v : Nat) : Mem :=
  fun i => if i = addr then v % 256 else m i

/-- Controller state, from src/controller/controller.go lines 4-8.
The button order is A, B, Select, Start, Up, Down, Left, Right
(index 0 is A). -/
structure Ctrl where
  buttons : Nat → Bool
  index : Nat
  strobe : Nat

/-- Controller as produced by controller.New: the zero value of the struct. -/
def ctrlNew : Ctrl := { buttons := fun _ => false, index := 0, strobe := 0 }

/-- SetButtons, controller.go lines 16-18. -/
def ctrlSetButtons (c : Ctrl) (b : Nat → Bool) : Ctrl := { c with buttons := b }

/-- Write, controller.go lines 21-26: strobe is bit 0 of the data; a high
strobe resets the read index. -/
def ctrlWrite (c : Ctrl) (data : Nat) : Ctrl :=
  let strobe := data &&& 1
  if strobe = 1 then
    { c with strobe := strobe, index := 0 }
  else
    { c with strobe := strobe }

/-- Read, controller.go lines 29-45: index at or past 8 returns 1; otherwise
the indexed button is returned and, when the strobe is low, the index
advances. -/
def ctrlRead (c : Ctrl) : Nat × Ctrl :=
  if c.index ≥ 8 then
    (1, c)
  else
    let value := if c.buttons c.index then 1 else 0
    if c.strobe = 0 then
      (value, { c with index := c.index + 1 })
    else
      (value, c)

/-- State after n successive reads of the controller. -/
def ctrlReadN (c : Ctrl) : Nat → Ctrl
  | 0 => c
  | n + 1 => (ctrlRead (ctrlReadN c n)).2

/-- Controller states reachable from the freshly constructed controller by
any sequence of button updates, register writes and register reads. -/
inductive CtrlReachable : Ctrl → Prop where
  | base : CtrlReachable ctrlNew
  | setButtons (c : Ctrl) (b : Nat → Bool) :
      CtrlReachable c → CtrlReachable (ctrlSetButtons c b)
  | write (c : Ctrl) (data : Nat) :
      CtrlReachable c → CtrlReachable (ctrlWrite c data)
  | read (c : Ctrl) :
      CtrlReachable c → CtrlReachable (ctrlRead c).2

/-- Addressing-mode tags of the 6502 interpreter, src/cpu/cpu.go lines 403-518. -/
inductive AddrModeKind where
  | imp | imm | zp0 | zpx | zpy | rel | abs | abx | aby | ind | izx | izy
deriving DecidableEq, Repr

/-- Operation tags of the 6502 interpreter, src/cpu/cpu.go lines 520-1093.
Unstable opcodes LXA and ANE are wired to nop in the lookup table, as in the
source. -/
inductive OpKind where
  | lda | las | lax | ldx | ldy | sta | stx | sty | sax
  | adc | sbc | inc | inx | iny | dec | dex | dey | dcp | isc
  | and | ora | eor | anc | alr | arr | rla | rra
  | asl | lsr | rol | ror
  | bcc | bcs | beq | bmi | bne | bpl | bvc | bvs
  | clc | cld | cli | clv | sec | sed | sei
  | cmp | cpx | cpy
  | jmp | jsr | rts | rti
  | bit | nop
  | pha | pla | php | plp
  | tax | txa | tay | tya | tsx | txs
deriving DecidableEq, Repr

/-- An entry of the instruction lookup table, src/cpu/instructions struct
(Name, Operate, AddrMode, AddrModeName, Cycles); the function pointers become
tags interpreted by runOp and runAddrMode. -/
structure Instruction where
  name : String
  op : OpKind
  mode : AddrModeKind
  modeName : String
  cycles : Nat

/-- CPU registers and working fields, src/cpu/cpu.go lines 24-52.  Fields
hold byte values (pc, addrAbs, addrRel: 16-bit values); cycles is the
remaining-cycle counter. -/
structure CPUS where
  pc : Nat
  sp : Nat
  a : Nat
  x : Nat
  y : Nat
  p : Nat
  opcode : Nat
  cycles : Nat
  fetched : Nat
  addrAbs : Nat
  addrRel : Nat

/-- The Flag translation function, src/cpu/cpu.go lines 1123-1143: maps the
ASCII codes of the flag letters C Z I D B U V N to bit positions 0-7 and
everything else (the default case) to 0. -/
def flagIndex (flag : Nat) : Nat :=
  match flag with
  | 67 => 0  -- C
  | 90 => 1  -- Z
  | 73 => 2  -- I
  | 68 => 3  -- D
  | 66 => 4  -- B
  | 85 => 5  -- U
  | 86 => 6  -- V
  | 78 => 7  -- N
  | _ => 0

/-- The constant B of src/cpu/cpu.go line 1117: the break-flag bit mask 1<<4. -/
def flagB : Nat := 16

/-- The constant U of src/cpu/cpu.go line 1118: the unused-flag bit mask 1<<5. -/
def flagU : Nat := 32

/-- setFlag, src/cpu/cpu.go lines 1097-1103: sets or clears bit
(1 << Flag(flag)) of P; the byte complement becomes xor with 255. -/
def setFlagP (p flag : Nat) (v : Bool) : Nat :=
  if v then p ||| (1 <<< flagIndex flag)
  else p &&& (255 ^^^ (1 <<< flagIndex flag))

/-- getFlag, src/cpu/cpu.go lines 1105-1110. -/
def getFlagP (p flag : Nat) : Nat :=
  if p &&& (1 <<< flagIndex flag) > 0 then 1 else 0

/-- The instruction lookup table, src/cpu/cpu.go lines 141-400.  Entries not
present in the literal get the XXX filler installed by the loop at lines
394-398: a 2-cycle implied NOP. -/
def lookupTable (op : Nat) : Instruction :=
  match op with
  -- LDA
  | 0xA9 => ⟨"LDA", .lda, .imm, "imm", 2⟩
  | 0xA5 => ⟨"LDA", .lda, .zp0, "zp0", 3⟩
  | 0xB5 => ⟨"LDA", .lda, .zpx, "zpx", 4⟩
  | 0xAD => ⟨"LDA", .lda, .abs, "abs", 4⟩
  | 0xBD => ⟨"LDA", .lda, .abx, "abx", 4⟩
  | 0xB9 => ⟨"LDA", .lda, .aby, "aby", 4⟩
  | 0xA1 => ⟨"LDA", .lda, .izx, "izx", 6⟩
  | 0xB1 => ⟨"LDA", .lda, .izy, "izy", 5⟩
  -- unofficial loads
  | 0xBB => ⟨"LAS", .las, .aby, "aby", 4⟩
  | 0xA7 => ⟨"LAX", .lax, .zp0, "zp0", 3⟩
  | 0xB7 => ⟨"LAX", .lax, .zpy, "zpy", 4⟩
  | 0xAF => ⟨"LAX", .lax, .abs, "abs", 4⟩
  | 0xBF => ⟨"LAX", .lax, .aby, "aby", 4⟩
  | 0xA3 => ⟨"LAX", .lax, .izx, "izx", 6⟩
  | 0xB3 => ⟨"LAX", .lax, .izy, "izy", 5⟩
  | 0xAB => ⟨"LXA", .nop, .imm, "imm", 2⟩
  -- LDX
  | 0xA2 => ⟨"LDX", .ldx, .imm, "imm", 2⟩
  | 0xA6 => ⟨"LDX", .ldx, .zp0, "zp0", 3⟩
  | 0xB6 => ⟨"LDX", .ldx, .zpy, "zpy", 4⟩
  | 0xAE => ⟨"LDX", .ldx, .abs, "abs", 4⟩
  | 0xBE => ⟨"LDX", .ldx, .aby, "aby", 4⟩
  -- LDY
  | 0xA0 => ⟨"LDY", .ldy, .imm, "imm", 2⟩
  | 0xA4 => ⟨"LDY", .ldy, .zp0, "zp0", 3⟩
  | 0xB4 => ⟨"LDY", .ldy, .zpx, "zpx", 4⟩
  | 0xAC => ⟨"LDY", .ldy, .abs, "abs", 4⟩
  | 0xBC => ⟨"LDY", .ldy, .abx, "abx", 4⟩
  -- STA
  | 0x85 => ⟨"STA", .sta, .zp0, "zp0", 3⟩
  | 0x95 => ⟨"STA", .sta, .zpx, "zpx", 4⟩
  | 0x8D => ⟨"STA", .sta, .abs, "abs", 4⟩
  | 0x9D => ⟨"STA", .sta, .abx, "abx", 5⟩
  | 0x99 => ⟨"STA", .sta, .aby, "aby", 5⟩
  | 0x81 => ⟨"STA", .sta, .izx, "izx", 6⟩
  | 0x91 => ⟨"STA", .sta, .izy, "izy", 6⟩
  -- STX
  | 0x86 => ⟨"STX", .stx, .zp0, "zp0", 3⟩
  | 0x96 => ⟨"STX", .stx, .zpy, "zpy", 4⟩
  | 0x8E => ⟨"STX", .stx, .abs, "abs", 4⟩
  -- STY
  | 0x84 => ⟨"STY", .sty, .zp0, "zp0", 3⟩
  | 0x94 => ⟨"STY", .sty, .zpx, "zpx", 4⟩
  | 0x8C => ⟨"STY", .sty, .abs, "abs", 4⟩
  -- SAX
  | 0x87 => ⟨"SAX", .sax, .zp0, "zp0", 3⟩
  | 0x97 => ⟨"SAX", .sax, .zpy, "zpy", 4⟩
  | 0x8F => ⟨"SAX", .sax, .abs, "abs", 4⟩
  | 0x83 => ⟨"SAX", .sax, .izx, "izx", 6⟩
  -- ADC
  | 0x69 => ⟨"ADC", .adc, .imm, "imm", 2⟩
  | 0x65 => ⟨"ADC", .adc, .zp0, "zp0", 3⟩
  | 0x75 => ⟨"ADC", .adc, .zpx, "zpx", 4⟩
  | 0x6D => ⟨"ADC", .adc, .abs, "abs", 4⟩
  | 0x7D => ⟨"ADC", .adc, .abx, "abx", 4⟩
  | 0x79 => ⟨"ADC", .adc, .aby, "aby", 4⟩
  | 0x61 => ⟨"ADC", .adc, .izx, "izx", 6⟩
  | 0x71 => ⟨"ADC", .adc, .izy, "izy", 5⟩
  -- SBC
  | 0xE9 => ⟨"SBC", .sbc, .imm, "imm", 2⟩
  | 0xE5 => ⟨"SBC", .sbc, .zp0, "zp0", 3⟩
  | 0xF5 => ⟨"SBC", .sbc, .zpx, "zpx", 4⟩
  | 0xED => ⟨"SBC", .sbc, .abs, "abs", 4⟩
  | 0xFD => ⟨"SBC", .sbc, .abx, "abx", 4⟩
  | 0xF9 => ⟨"SBC", .sbc, .aby, "aby", 4⟩
  | 0xE1 => ⟨"SBC", .sbc, .izx, "izx", 6⟩
  | 0xF1 => ⟨"SBC", .sbc, .izy, "izy", 5⟩
  -- INC DEC
  | 0xE6 => ⟨"INC", .inc, .zp0, "zp0", 5⟩
  | 0xF6 => ⟨"INC", .inc, .zpx, "zpx", 6⟩
  | 0xEE => ⟨"INC", .inc, .abs, "abs", 6⟩
  | 0xFE => ⟨"INC", .inc, .abx, "abx", 7⟩
  | 0xE8 => ⟨"INX", .inx, .imp, "imp", 2⟩
  | 0xC8 => ⟨"INY", .iny, .imp, "imp", 2⟩
  | 0xC6 => ⟨"DEC", .dec, .zp0, "zp0", 5⟩
  | 0xD6 => ⟨"DEC", .dec, .zpx, "zpx", 6⟩
  | 0xCE => ⟨"DEC", .dec, .abs, "abs", 6⟩
  | 0xDE => ⟨"DEC", .dec, .abx, "abx", 7⟩
  | 0xCA => ⟨"DEX", .dex, .imp, "imp", 2⟩
  | 0x88 => ⟨"DEY", .dey, .imp, "imp", 2⟩
  -- DCP
  | 0xC7 => ⟨"DCP", .dcp, .zp0, "zp0", 5⟩
  | 0xD7 => ⟨"DCP", .dcp, .zpx, "zpx", 6⟩
  | 0xCF => ⟨"DCP", .dcp, .abs, "abs", 6⟩
  | 0xDF => ⟨"DCP", .dcp, .abx, "abx", 7⟩
  | 0xDB => ⟨"DCP", .dcp, .aby, "aby", 7⟩
  | 0xC3 => ⟨"DCP", .dcp, .izx, "izx", 8⟩
  | 0xD3 => ⟨"DCP", .dcp, .izy, "izy", 8⟩
  -- ISC
  | 0xE7 => ⟨"ISC", .isc, .zp0, "zp0", 5⟩
  | 0xF7 => ⟨"ISC", .isc, .zpx, "zpx", 6⟩
  | 0xEF => ⟨"ISC", .isc, .abs, "abs", 6⟩
  | 0xFF => ⟨"ISC", .isc, .abx, "abx", 7⟩
  | 0xFB => ⟨"ISC", .isc, .aby, "aby", 7⟩
  | 0xE3 => ⟨"ISC", .isc, .izx, "izx", 8⟩
  | 0xF3 => ⟨"ISC", .isc, .izy, "izy", 8⟩
  -- AND
  | 0x29 => ⟨"AND", .and, .imm, "imm", 2⟩
  | 0x25 => ⟨"AND", .and, .zp0, "zp0", 3⟩
  | 0x35 => ⟨"AND", .and, .zpx, "zpx", 4⟩
  | 0x2D => ⟨"AND", .and, .abs, "abs", 4⟩
  | 0x3D => ⟨"AND", .and, .abx, "abx", 4⟩
  | 0x39 => ⟨"AND", .and, .aby, "aby", 4⟩
  | 0x21 => ⟨"AND", .and, .izx, "izx", 6⟩
  | 0x31 => ⟨"AND", .and, .izy, "izy", 5⟩
  -- ORA
  | 0x09 => ⟨"ORA", .ora, .imm, "imm", 2⟩
  | 0x05 => ⟨"ORA", .ora, .zp0, "zp0", 3⟩
  | 0x15 => ⟨"ORA", .ora, .zpx, "zpx", 4⟩
  | 0x0D => ⟨"ORA", .ora, .abs, "abs", 4⟩
  | 0x1D => ⟨"ORA", .ora, .abx, "abx", 4⟩
  | 0x19 => ⟨"ORA", .ora, .aby, "aby", 4⟩
  | 0x01 => ⟨"ORA", .ora, .izx, "izx", 6⟩
  | 0x11 => ⟨"ORA", .ora, .izy, "izy", 5⟩
  -- EOR
  | 0x49 => ⟨"EOR", .eor, .imm, "imm", 2⟩
  | 0x45 => ⟨"EOR", .eor, .zp0, "zp0", 3⟩
  | 0x55 => ⟨"EOR", .eor, .zpx, "zpx", 4⟩
  | 0x4D => ⟨"EOR", .eor, .abs, "abs", 4⟩
  | 0x5D => ⟨"EOR", .eor, .abx, "abx", 4⟩
  | 0x59 => ⟨"EOR", .eor, .aby, "aby", 4⟩
  | 0x41 => ⟨"EOR", .eor, .izx, "izx", 6⟩
  | 0x51 => ⟨"EOR", .eor, .izy, "izy", 5⟩
  -- unofficial logical
  | 0x0B => ⟨"ANC", .anc, .imm, "imm", 2⟩
  | 0x2B => ⟨"ANC", .anc, .imm, "imm", 2⟩
  | 0x4B => ⟨"ALR", .alr, .imm, "imm", 2⟩
  | 0x8B => ⟨"ANE", .nop, .imm, "imm", 2⟩
  | 0x6B => ⟨"ARR", .arr, .imm, "imm", 2⟩
  -- RLA
  | 0x27 => ⟨"RLA", .rla, .zp0, "zp0", 5⟩
  | 0x37 => ⟨"RLA", .rla, .zpx, "zpx", 6⟩
  | 0x2F => ⟨"RLA", .rla, .abs, "abs", 6⟩
  | 0x3F => ⟨"RLA", .rla, .abx, "abx", 7⟩
  | 0x3B => ⟨"RLA", .rla, .aby, "aby", 7⟩
  | 0x23 => ⟨"RLA", .rla, .izx, "izx", 8⟩
  | 0x33 => ⟨"RLA", .rla, .izy, "izy", 8⟩
  -- RRA
  | 0x67 => ⟨"RRA", .rra, .zp0, "zp0", 5⟩
  | 0x77 => ⟨"RRA", .rra, .zpx, "zpx", 6⟩
  | 0x6F => ⟨"RRA", .rra, .abs, "abs", 6⟩
  | 0x7F => ⟨"RRA", .rra, .abx, "abx", 7⟩
  | 0x7B => ⟨"RRA", .rra, .aby, "aby", 7⟩
  | 0x63 => ⟨"RRA", .rra, .izx, "izx", 8⟩
  | 0x73 => ⟨"RRA", .rra, .izy, "izy", 8⟩
  -- shifts and rotates
  | 0x0A => ⟨"ASL", .asl, .imp, "imp", 2⟩
  | 0x06 => ⟨"ASL", .asl, .zp0, "zp0", 5⟩
  | 0x16 => ⟨"ASL", .asl, .zpx, "zpx", 6⟩
  | 0x0E => ⟨"ASL", .asl, .abs, "abs", 6⟩
  | 0x1E => ⟨"ASL", .asl, .abx, "abx", 7⟩
  | 0x4A => ⟨"LSR", .lsr, .imp, "imp", 2⟩
  | 0x46 => ⟨"LSR", .lsr, .zp0, "zp0", 5⟩
  | 0x56 => ⟨"LSR", .lsr, .zpx, "zpx", 6⟩
  | 0x4E => ⟨"LSR", .lsr, .abs, "abs", 6⟩
  | 0x5E => ⟨"LSR", .lsr, .abx, "abx", 7⟩
  | 0x2A => ⟨"ROL", .rol, .imp, "imp", 2⟩
  | 0x26 => ⟨"ROL", .rol, .zp0, "zp0", 5⟩
  | 0x36 => ⟨"ROL", .rol, .zpx, "zpx", 6⟩
  | 0x2E => ⟨"ROL", .rol, .abs, "abs", 6⟩
  | 0x3E => ⟨"ROL", .rol, .abx, "abx", 7⟩
  | 0x6A => ⟨"ROR", .ror, .imp, "imp", 2⟩
  | 0x66 => ⟨"ROR", .ror, .zp0, "zp0", 5⟩
  | 0x76 => ⟨"ROR", .ror, .zpx, "zpx", 6⟩
  | 0x6E => ⟨"ROR", .ror, .abs, "abs", 6⟩
  | 0x7E => ⟨"ROR", .ror, .abx, "abx", 7⟩
  -- branches
  | 0x90 => ⟨"BCC", .bcc, .rel, "rel", 2⟩
  | 0xB0 => ⟨"BCS", .bcs, .rel, "rel", 2⟩
  | 0xF0 => ⟨"BEQ", .beq, .rel, "rel", 2⟩
  | 0x30 => ⟨"BMI", .bmi, .rel, "rel", 2⟩
  | 0xD0 => ⟨"BNE", .bne, .rel, "rel", 2⟩
  | 0x10 => ⟨"BPL", .bpl, .rel, "rel", 2⟩
  | 0x50 => ⟨"BVC", .bvc, .rel, "rel", 2⟩
  | 0x70 => ⟨"BVS", .bvs, .rel, "rel", 2⟩
  -- flag operations
  | 0x18 => ⟨"CLC", .clc, .imp, "imp", 2⟩
  | 0xD8 => ⟨"CLD", .cld, .imp, "imp", 2⟩
  | 0x58 => ⟨"CLI", .cli, .imp, "imp", 2⟩
  | 0xB8 => ⟨"CLV", .clv, .imp, "imp", 2⟩
  | 0x38 => ⟨"SEC", .sec, .imp, "imp", 2⟩
  | 0xF8 => ⟨"SED", .sed, .imp, "imp", 2⟩
  | 0x78 => ⟨"SEI", .sei, .imp, "imp", 2⟩
  -- compares
  | 0xC9 => ⟨"CMP", .cmp, .imm, "imm", 2⟩
  | 0xC5 => ⟨"CMP", .cmp, .zp0, "zp0", 3⟩
  | 0xD5 => ⟨"CMP", .cmp, .zpx, "zpx", 4⟩
  | 0xCD => ⟨"CMP", .cmp, .abs, "abs", 4⟩
  | 0xDD => ⟨"CMP", .cmp, .abx, "abx", 4⟩
  | 0xD9 => ⟨"CMP", .cmp, .aby, "aby", 4⟩
  | 0xC1 => ⟨"CMP", .cmp, .izx, "izx", 6⟩
  | 0xD1 => ⟨"CMP", .cmp, .izy, "izy", 5⟩
  | 0xE0 => ⟨"CPX", .cpx, .imm, "imm", 2⟩
  | 0xE4 => ⟨"CPX", .cpx, .zp0, "zp0", 3⟩
  | 0xEC => ⟨"CPX", .cpx, .abs, "abs", 4⟩
  | 0xC0 => ⟨"CPY", .cpy, .imm, "imm", 2⟩
  | 0xC4 => ⟨"CPY", .cpy, .zp0, "zp0", 3⟩
  | 0xCC => ⟨"CPY", .cpy, .abs, "abs", 4⟩
  -- jumps
  | 0x4C => ⟨"JMP", .jmp, .abs, "abs", 3⟩
  | 0x6C => ⟨"JMP", .jmp, .ind, "ind", 5⟩
  | 0x20 => ⟨"JSR", .jsr, .abs, "abs", 6⟩
  | 0x60 => ⟨"RTS", .rts, .imp, "imp", 6⟩
  | 0x40 => ⟨"RTI", .rti, .imp, "imp", 6⟩
  -- other
  | 0x24 => ⟨"BIT", .bit, .zp0, "zp0", 3⟩
  | 0x2C => ⟨"BIT", .bit, .abs, "abs", 4⟩
  | 0xEA => ⟨"NOP", .nop, .imp, "imp", 2⟩
  -- stack
  | 0x48 => ⟨"PHA", .pha, .imp, "imp", 3⟩
  | 0x68 => ⟨"PLA", .pla, .imp, "imp", 4⟩
  | 0x08 => ⟨"PHP", .php, .imp, "imp", 3⟩
  | 0x28 => ⟨"PLP", .plp, .imp, "imp", 4⟩
  -- transfers
  | 0xAA => ⟨"TAX", .tax, .imp, "imp", 2⟩
  | 0x8A => ⟨"TXA", .txa, .imp, "imp", 2⟩
  | 0xA8 => ⟨"TAY", .tay, .imp, "imp", 2⟩
  | 0x98 => ⟨"TYA", .tya, .imp, "imp", 2⟩
  | 0xBA => ⟨"TSX", .tsx, .imp, "imp", 2⟩
  | 0x9A => ⟨"TXS", .txs, .imp, "imp", 2⟩
  | _ => ⟨"XXX", .nop, .imp, "imp", 2⟩

/-- push, src/cpu/cpu.go lines 129-132: write to the stack page at the old SP,
then decrement SP (byte wrap-around). -/
def cpuPush (s : CPUS) (m : Mem) (data : Nat) : CPUS × Mem :=
  ({ s with sp := (s.sp + 255) % 256 }, memWrite m (0x100 + s.sp) data)

/-- pop, src/cpu/cpu.go lines 134-137: increment SP (byte wrap-around), then
read from the stack page at the new SP. -/
def cpuPop (s : CPUS) (m : Mem) : Nat × CPUS :=
  let sp1 := (s.sp + 1) % 256
  (memRead m (0x100 + sp1), { s with sp := sp1 })

/-- fetch, src/cpu/cpu.go lines 1077-1082: for every addressing mode other
than implied, load the operand byte from the effective address. -/
def fetchOperand (s : CPUS) (m : Mem) : CPUS :=
  if (lookupTable s.opcode).modeName ≠ "imp" then
    { s with fetched := memRead m s.addrAbs }
  else s

/-- branch, src/cpu/cpu.go lines 1084-1093: one extra cycle for the taken
branch, a second one when the destination is on a different page. -/
def branchStep (s : CPUS) : CPUS :=
  let cyc1 := s.cycles + 1
  let dest := (s.pc + s.addrRel) % 65536
  let cyc2 := if dest &&& 0xFF00 ≠ s.pc &&& 0xFF00 then cyc1 + 1 else cyc1
  { s with cycles := cyc2, addrAbs := dest, pc := dest }

/-- The addressing-mode handlers, src/cpu/cpu.go lines 405-518.  The returned
number is the extra-cycle report of the Go function (1 on a page cross for
abx, aby and izy; 0 otherwise).  16-bit additions wrap mod 65536 and
zero-page additions wrap mod 256, as the Go uint16/byte arithmetic does. -/
def runAddrMode (k : AddrModeKind) (s : CPUS) (m : Mem) : CPUS × Nat :=
  match k with
  | .imp => ({ s with fetched := s.a }, 0)
  | .imm => ({ s with addrAbs := s.pc, pc := (s.pc + 1) % 65536 }, 0)
  | .zp0 => ({ s with addrAbs := memRead m s.pc, pc := (s.pc + 1) % 65536 }, 0)
  | .zpx =>
      let v := (memRead m s.pc + s.x) % 256
      ({ s with addrAbs := v &&& 0xFF, pc := (s.pc + 1) % 65536 }, 0)
  | .zpy =>
      let v := (memRead m s.pc + s.y) % 256
      ({ s with addrAbs := v &&& 0xFF, pc := (s.pc + 1) % 65536 }, 0)
  | .rel =>
      let r := memRead m s.pc
      let r2 := if r &&& 0x80 ≠ 0 then r ||| 0xFF00 else r
      ({ s with addrRel := r2, pc := (s.pc + 1) % 65536 }, 0)
  | .abs =>
      let lo := memRead m s.pc
      let hi := memRead m ((s.pc + 1) % 65536)
      ({ s with addrAbs := (hi <<< 8) ||| lo, pc := (s.pc + 2) % 65536 }, 0)
  | .abx =>
      let lo := memRead m s.pc
      let hi := memRead m ((s.pc + 1) % 65536)
      let addr := (((hi <<< 8) ||| lo) + s.x) % 65536
      ({ s with addrAbs := addr, pc := (s.pc + 2) % 65536 },
       if addr &&& 0xFF00 ≠ hi <<< 8 then 1 else 0)
  | .aby =>
      let lo := memRead m s.pc
      let hi := memRead m ((s.pc + 1) % 65536)
      let addr := (((hi <<< 8) ||| lo) + s.y) % 65536
      ({ s with addrAbs := addr, pc := (s.pc + 2) % 65536 },
       if addr &&& 0xFF00 ≠ hi <<< 8 then 1 else 0)
  | .ind =>
      let ptrLo := memRead m s.pc
      let ptrHi := memRead m ((s.pc + 1) % 65536)
      let ptr := (ptrHi <<< 8) ||| ptrLo
      let addr :=
        if ptrLo = 0xFF then  -- page-boundary hardware bug
          (memRead m (ptr &&& 0xFF00) <<< 8) ||| memRead m ptr
        else
          (memRead m ((ptr + 1) % 65536) <<< 8) ||| memRead m ptr
      ({ s with addrAbs := addr, pc := (s.pc + 2) % 65536 }, 0)
  | .izx =>
      let t := memRead m s.pc
      let lo := memRead m ((t + s.x) &&& 0xFF)
      let hi := memRead m ((t + s.x + 1) &&& 0xFF)
      ({ s with addrAbs := (hi <<< 8) ||| lo, pc := (s.pc + 1) % 65536 }, 0)
  | .izy =>
      let t := memRead m s.pc
      let lo := memRead m (t &&& 0xFF)
      let hi := memRead m ((t + 1) &&& 0xFF)
      let addr := (((hi <<< 8) ||| lo) + s.y) % 65536
      ({ s with addrAbs := addr, pc := (s.pc + 1) % 65536 },
       if addr &&& 0xFF00 ≠ hi <<< 8 then 1 else 0)

/-- The operation handlers, src/cpu/cpu.go lines 522-1075, in source order
within each case.  The returned number is the extra-cycle report of the Go
function: 1 for adc, sbc and cmp (unconditionally, as in the source), 0 for
every other operation.  Flag letters are passed as their ASCII codes, the
way the Go byte parameter receives them; rti and plp pass the bit-mask
constants B=16 and U=32 instead, exactly as the source does.  Byte
arithmetic wraps mod 256 and uint16 arithmetic wraps mod 65536. -/
def runOp (k : OpKind) (s : CPUS) (m : Mem) : CPUS × Mem × Nat :=
  match k with
  | .ldy =>
      let s1 := fetchOperand s m
      let p1 := setFlagP s1.p 90 (s1.fetched == 0)
      let p2 := setFlagP p1 78 (s1.fetched &&& 0x80 != 0)
      ({ s1 with y := s1.fetched, p := p2 }, m, 0)
  | .ldx =>
      let s1 := fetchOperand s m
      let p1 := setFlagP s1.p 90 (s1.fetched == 0)
      let p2 := setFlagP p1 78 (s1.fetched &&& 0x80 != 0)
      ({ s1 with x := s1.fetched, p := p2 }, m, 0)
  | .sty => (s, memWrite m s.addrAbs s.y, 0)
  | .stx => (s, memWrite m s.addrAbs s.x, 0)
  | .sta => (s, memWrite m s.addrAbs s.a, 0)
  | .sax => (s, memWrite m s.addrAbs (s.a &&& s.x), 0)
  | .plp =>
      let (v, s1) := cpuPop s m
      let p1 := setFlagP v flagB false   -- Flag(16) falls through to 0
      let p2 := setFlagP p1 flagU true   -- Flag(32) falls through to 0
      ({ s1 with p := p2 }, m, 0)
  | .php =>
      let (s1, m1) := cpuPush s m (s.p ||| flagB ||| flagU)
      (s1, m1, 0)
  | .pla =>
      let (v, s1) := cpuPop s m
      let p1 := setFlagP s1.p 90 (v == 0)
      let p2 := setFlagP p1 78 (v &&& 0x80 != 0)
      ({ s1 with a := v, p := p2 }, m, 0)
  | .pha =>
      let (s1, m1) := cpuPush s m s.a
      (s1, m1, 0)
  | .tya =>
      let p1 := setFlagP s.p 90 (s.y == 0)
      let p2 := setFlagP p1 78 (s.y &&& 0x80 != 0)
      ({ s with a := s.y, p := p2 }, m, 0)
  | .tay =>
      let p1 := setFlagP s.p 90 (s.a == 0)
      let p2 := setFlagP p1 78 (s.a &&& 0x80 != 0)
      ({ s with y := s.a, p := p2 }, m, 0)
  | .txa =>
      let p1 := setFlagP s.p 90 (s.x == 0)
      let p2 := setFlagP p1 78 (s.x &&& 0x80 != 0)
      ({ s with a := s.x, p := p2 }, m, 0)
  | .tsx =>
      let p1 := setFlagP s.p 90 (s.sp == 0)
      let p2 := setFlagP p1 78 (s.sp &&& 0x80 != 0)
      ({ s with x := s.sp, p := p2 }, m, 0)
  | .txs => ({ s with sp := s.x }, m, 0)
  | .tax =>
      let p1 := setFlagP s.p 90 (s.a == 0)
      let p2 := setFlagP p1 78 (s.a &&& 0x80 != 0)
      ({ s with x := s.a, p := p2 }, m, 0)
  | .lda =>
      let s1 := fetchOperand s m
      let p1 := setFlagP s1.p 90 (s1.fetched == 0)
      let p2 := setFlagP p1 78 (s1.fetched &&& 0x80 != 0)
      ({ s1 with a := s1.fetched, p := p2 }, m, 0)
  | .las =>
      let s1 := fetchOperand s m
      let v := s1.fetched &&& s1.sp
      let p1 := setFlagP s1.p 90 (v == 0)
      let p2 := setFlagP p1 78 (v &&& 0x80 != 0)
      ({ s1 with a := v, x := v, sp := v, p := p2 }, m, 0)
  | .lax =>
      let s1 := fetchOperand s m
      let p1 := setFlagP s1.p 90 (s1.fetched == 0)
      let p2 := setFlagP p1 78 (s1.fetched &&& 0x80 != 0)
      ({ s1 with a := s1.fetched, x := s1.fetched, p := p2 }, m, 0)
  | .sbc =>
      let s1 := fetchOperand s m
      let temp := (131072 + s1.a - s1.fetched - (1 - getFlagP s1.p 67)) % 65536
      let p1 := setFlagP s1.p 67 (decide (temp < 0x100))
      let p2 := setFlagP p1 90 (temp &&& 0xFF == 0)
      let p3 := setFlagP p2 86 (((s1.a ^^^ temp) &&& ((0xFF ^^^ s1.fetched) ^^^ temp)) &&& 0x80 != 0)
      let p4 := setFlagP p3 78 (temp &&& 0x80 != 0)
      ({ s1 with a := temp &&& 0xFF, p := p4 }, m, 1)
  | .adc =>
      let s1 := fetchOperand s m
      let temp := s1.a + s1.fetched + getFlagP s1.p 67
      let p1 := setFlagP s1.p 67 (decide (temp > 255))
      let p2 := setFlagP p1 90 (temp &&& 0xFF == 0)
      let p3 := setFlagP p2 86 (((s1.a ^^^ temp) &&& (s1.fetched ^^^ temp)) &&& 0x80 != 0)
      let p4 := setFlagP p3 78 (temp &&& 0x80 != 0)
      ({ s1 with a := temp &&& 0xFF, p := p4 }, m, 1)
  | .dey =>
      let v := (s.y + 255) % 256
      let p1 := setFlagP s.p 90 (v == 0)
      let p2 := setFlagP p1 78 (v &&& 0x80 != 0)
      ({ s with y := v, p := p2 }, m, 0)
  | .dex =>
      let v := (s.x + 255) % 256
      let p1 := setFlagP s.p 90 (v == 0)
      let p2 := setFlagP p1 78 (v &&& 0x80 != 0)
      ({ s with x := v, p := p2 }, m, 0)
  | .dec =>
      let s1 := fetchOperand s m
      let temp := (s1.fetched + 255) % 256
      let m1 := memWrite m s1.addrAbs temp
      let p1 := setFlagP s1.p 90 (temp == 0)
      let p2 := setFlagP p1 78 (temp &&& 0x80 != 0)
      ({ s1 with p := p2 }, m1, 0)
  | .iny =>
      let v := (s.y + 1) % 256
      let p1 := setFlagP s.p 90 (v == 0)
      let p2 := setFlagP p1 78 (v &&& 0x80 != 0)
      ({ s with y := v, p := p2 }, m, 0)
  | .inx =>
      let v := (s.x + 1) % 256
      let p1 := setFlagP s.p 90 (v == 0)
      let p2 := setFlagP p1 78 (v &&& 0x80 != 0)
      ({ s with x := v, p := p2 }, m, 0)
  | .inc =>
      let s1 := fetchOperand s m
      let temp := (s1.fetched + 1) % 256
      let m1 := memWrite m s1.addrAbs temp
      let p1 := setFlagP s1.p 90 (temp == 0)
      let p2 := setFlagP p1 78 (temp &&& 0x80 != 0)
      ({ s1 with p := p2 }, m1, 0)
  | .dcp =>
      let s1 := fetchOperand s m
      let temp := (s1.fetched + 255) % 256
      let m1 := memWrite m s1.addrAbs temp
      let res := (s1.a + 256 - temp) % 256
      let p1 := setFlagP s1.p 67 (decide (s1.a ≥ temp))
      let p2 := setFlagP p1 90 (res == 0)
      let p3 := setFlagP p2 78 (res &&& 0x80 != 0)
      ({ s1 with p := p3 }, m1, 0)
  | .isc =>
      let s1 := fetchOperand s m
      let temp := (s1.fetched + 1) % 256
      let m1 := memWrite m s1.addrAbs temp
      let res := (131072 + s1.a - temp - (1 - getFlagP s1.p 67)) % 65536
      let p1 := setFlagP s1.p 67 (decide (res < 0x100))
      let p2 := setFlagP p1 90 (res &&& 0xFF == 0)
      let p3 := setFlagP p2 86 (((s1.a ^^^ res) &&& (temp ^^^ res)) &&& 0x80 != 0)
      let p4 := setFlagP p3 78 (res &&& 0x80 != 0)
      ({ s1 with a := res &&& 0xFF, p := p4 }, m1, 0)
  | .eor =>
      let s1 := fetchOperand s m
      let v := s1.a ^^^ s1.fetched
      let p1 := setFlagP s1.p 90 (v == 0)
      let p2 := setFlagP p1 78 (v &&& 0x80 != 0)
      ({ s1 with a := v, p := p2 }, m, 0)
  | .anc =>
      let s1 := fetchOperand s m
      let v := s1.a &&& s1.fetched
      let p1 := setFlagP s1.p 90 (v == 0)
      let p2 := setFlagP p1 78 (v &&& 0x80 != 0)
      let p3 := setFlagP p2 67 (getFlagP p2 78 == 1)
      ({ s1 with a := v, p := p3 }, m, 0)
  | .and =>
      let s1 := fetchOperand s m
      let v := s1.a &&& s1.fetched
      let p1 := setFlagP s1.p 90 (v == 0)
      let p2 := setFlagP p1 78 (v &&& 0x80 != 0)
      ({ s1 with a := v, p := p2 }, m, 0)
  | .ora =>
      let s1 := fetchOperand s m
      let v := s1.a ||| s1.fetched
      let p1 := setFlagP s1.p 90 (v == 0)
      let p2 := setFlagP p1 78 (v &&& 0x80 != 0)
      ({ s1 with a := v, p := p2 }, m, 0)
  | .alr =>
      let s1 := fetchOperand s m
      let v := s1.a &&& s1.fetched
      let p1 := setFlagP s1.p 90 (v == 0)
      let p2 := setFlagP p1 78 (v &&& 0x80 != 0)
      let p3 := setFlagP p2 67 (v &&& 1 != 0)
      let v2 := v >>> 1
      let p4 := setFlagP p3 90 (v2 == 0)
      let p5 := setFlagP p4 78 (v2 &&& 0x80 != 0)
      ({ s1 with a := v2, p := p5 }, m, 0)
  | .ror =>
      let s1 := fetchOperand s m
      let temp := (s1.fetched >>> 1) ||| (getFlagP s1.p 67 <<< 7)
      let p1 := setFlagP s1.p 67 (s1.fetched &&& 1 != 0)
      let p2 := setFlagP p1 90 (temp &&& 0xFF == 0)
      let p3 := setFlagP p2 78 (temp &&& 0x80 != 0)
      if (lookupTable s1.opcode).modeName = "imp" then
        ({ s1 with a := temp &&& 0xFF, p := p3 }, m, 0)
      else
        ({ s1 with p := p3 }, memWrite m s1.addrAbs (temp &&& 0xFF), 0)
  | .arr =>
      let s1 := fetchOperand s m
      let v := s1.a &&& s1.fetched
      let p1 := setFlagP s1.p 90 (v == 0)
      let p2 := setFlagP p1 78 (v &&& 0x80 != 0)
      let oldC := getFlagP p2 67
      let p3 := setFlagP p2 67 (v &&& 1 != 0)
      let v2 := (v >>> 1) ||| (oldC <<< 7)
      let p4 := setFlagP p3 90 (v2 == 0)
      let p5 := setFlagP p4 78 (v2 &&& 0x80 != 0)
      let p6 := setFlagP p5 86 (((v2 >>> 6) &&& 1) ^^^ ((v2 >>> 5) &&& 1) != 0)
      ({ s1 with a := v2, p := p6 }, m, 0)
  | .rol =>
      let s1 := fetchOperand s m
      let temp := (s1.fetched <<< 1) ||| getFlagP s1.p 67
      let p1 := setFlagP s1.p 67 (decide (temp > 0xFF))
      let p2 := setFlagP p1 90 (temp &&& 0xFF == 0)
      let p3 := setFlagP p2 78 (temp &&& 0x80 != 0)
      if (lookupTable s1.opcode).modeName = "imp" then
        ({ s1 with a := temp &&& 0xFF, p := p3 }, m, 0)
      else
        ({ s1 with p := p3 }, memWrite m s1.addrAbs (temp &&& 0xFF), 0)
  | .lsr =>
      let s1 := fetchOperand s m
      let p1 := setFlagP s1.p 67 (s1.fetched &&& 1 != 0)
      let temp := s1.fetched >>> 1
      let p2 := setFlagP p1 90 (temp == 0)
      let p3 := setFlagP p2 78 (temp &&& 0x80 != 0)
      if (lookupTable s1.opcode).modeName = "imp" then
        ({ s1 with a := temp, p := p3 }, m, 0)
      else
        ({ s1 with p := p3 }, memWrite m s1.addrAbs temp, 0)
  | .asl =>
      let s1 := fetchOperand s m
      let temp := s1.fetched <<< 1
      let p1 := setFlagP s1.p 67 (decide (temp > 0xFF))
      let p2 := setFlagP p1 90 (temp &&& 0xFF == 0)
      let p3 := setFlagP p2 78 (temp &&& 0x80 != 0)
      if (lookupTable s1.opcode).modeName = "imp" then
        ({ s1 with a := temp &&& 0xFF, p := p3 }, m, 0)
      else
        ({ s1 with p := p3 }, memWrite m s1.addrAbs (temp &&& 0xFF), 0)
  | .rla =>
      let s1 := fetchOperand s m
      let oldC := getFlagP s1.p 67
      let p1 := setFlagP s1.p 67 (s1.fetched &&& 0x80 != 0)
      let v := ((s1.fetched <<< 1) ||| oldC) % 256
      let m1 := memWrite m s1.addrAbs v
      let a1 := s1.a &&& v
      let p2 := setFlagP p1 90 (a1 == 0)
      let p3 := setFlagP p2 78 (a1 &&& 0x80 != 0)
      ({ s1 with a := a1, p := p3 }, m1, 0)
  | .rra =>
      let s1 := fetchOperand s m
      let oldC := getFlagP s1.p 67
      let p1 := setFlagP s1.p 67 (s1.fetched &&& 1 != 0)
      let v := (s1.fetched >>> 1) ||| (oldC <<< 7)
      let m1 := memWrite m s1.addrAbs v
      let res := s1.a + v + getFlagP p1 67
      let p2 := setFlagP p1 67 (decide (res > 255))
      let p3 := setFlagP p2 90 (res &&& 0xFF == 0)
      let p4 := setFlagP p3 86 (((s1.a ^^^ res) &&& (v ^^^ res)) &&& 0x80 != 0)
      let p5 := setFlagP p4 78 (res &&& 0x80 != 0)
      ({ s1 with a := res &&& 0xFF, p := p5 }, m1, 0)
  | .bvs => (if getFlagP s.p 86 = 1 then branchStep s else s, m, 0)
  | .bvc => (if getFlagP s.p 86 = 0 then branchStep s else s, m, 0)
  | .bpl => (if getFlagP s.p 78 = 0 then branchStep s else s, m, 0)
  | .bne => (if getFlagP s.p 90 = 0 then branchStep s else s, m, 0)
  | .bmi => (if getFlagP s.p 78 = 1 then branchStep s else s, m, 0)
  | .beq => (if getFlagP s.p 90 = 1 then branchStep s else s, m, 0)
  | .bcs => (if getFlagP s.p 67 = 1 then branchStep s else s, m, 0)
  | .bcc => (if getFlagP s.p 67 = 0 then branchStep s else s, m, 0)
  | .sei => ({ s with p := setFlagP s.p 73 true }, m, 0)
  | .sed => ({ s with p := setFlagP s.p 68 true }, m, 0)
  | .sec => ({ s with p := setFlagP s.p 67 true }, m, 0)
  | .clv => ({ s with p := setFlagP s.p 86 false }, m, 0)
  | .cli => ({ s with p := setFlagP s.p 73 false }, m, 0)
  | .cld => ({ s with p := setFlagP s.p 68 false }, m, 0)
  | .clc => ({ s with p := setFlagP s.p 67 false }, m, 0)
  | .cpy =>
      let s1 := fetchOperand s m
      let temp := (s1.y + 256 - s1.fetched) % 256
      let p1 := setFlagP s1.p 67 (decide (s1.y ≥ s1.fetched))
      let p2 := setFlagP p1 90 (temp == 0)
      let p3 := setFlagP p2 78 (temp &&& 0x80 != 0)
      ({ s1 with p := p3 }, m, 0)
  | .cpx =>
      let s1 := fetchOperand s m
      let temp := (s1.x + 256 - s1.fetched) % 256
      let p1 := setFlagP s1.p 67 (decide (s1.x ≥ s1.fetched))
      let p2 := setFlagP p1 90 (temp == 0)
      let p3 := setFlagP p2 78 (temp &&& 0x80 != 0)
      ({ s1 with p := p3 }, m, 0)
  | .cmp =>
      let s1 := fetchOperand s m
      let temp := (s1.a + 256 - s1.fetched) % 256
      let p1 := setFlagP s1.p 67 (decide (s1.a ≥ s1.fetched))
      let p2 := setFlagP p1 90 (temp == 0)
      let p3 := setFlagP p2 78 (temp &&& 0x80 != 0)
      ({ s1 with p := p3 }, m, 1)
  | .rti =>
      let (v, s1) := cpuPop s m
      let p1 := setFlagP v flagB false   -- Flag(16) falls through to 0
      let p2 := setFlagP p1 flagU false  -- Flag(32) falls through to 0
      let (lo, s2) := cpuPop s1 m
      let (hi, s3) := cpuPop s2 m
      ({ s3 with p := p2, pc := lo ||| (hi <<< 8) }, m, 0)
  | .rts =>
      let (lo, s1) := cpuPop s m
      let (hi, s2) := cpuPop s1 m
      ({ s2 with pc := ((lo ||| (hi <<< 8)) + 1) % 65536 }, m, 0)
  | .jsr =>
      let pc1 := (s.pc + 65535) % 65536
      let s1 := { s with pc := pc1 }
      let (s2, m1) := cpuPush s1 m ((pc1 >>> 8) &&& 0xFF)
      let (s3, m2) := cpuPush s2 m1 (pc1 &&& 0xFF)
      ({ s3 with pc := s3.addrAbs }, m2, 0)
  | .jmp => ({ s with pc := s.addrAbs }, m, 0)
  | .nop => (s, m, 0)
  | .bit =>
      let s1 := fetchOperand s m
      let temp := s1.a &&& s1.fetched
      let p1 := setFlagP s1.p 90 (temp == 0)
      let p2 := setFlagP p1 78 (s1.fetched &&& 0x80 != 0)
      let p3 := setFlagP p2 86 (s1.fetched &&& 0x40 != 0)
      ({ s1 with p := p3 }, m, 0)

/-- Clock, src/cpu/cpu.go lines 112-127: when the remaining-cycle counter is
zero, fetch the opcode, set the counter to the base cycles of the lookup
entry, run the addressing mode and the operation, and add both extra-cycle
reports (the source adds them unconditionally); then decrement the
counter. -/
def cpuClock (s : CPUS) (m : Mem) : CPUS × Mem :=
  if s.cycles = 0 then
    let opcode := memRead m s.pc
    let instr := lookupTable opcode
    let s1 := { s with opcode := opcode, pc := (s.pc + 1) % 65536,
                       cycles := instr.cycles }
    let (s2, add1) := runAddrMode instr.mode s1 m
    let (s3, m1, add2) := runOp instr.op s2 m
    ({ s3 with cycles := s3.cycles + add1 + add2 - 1 }, m1)
  else
    ({ s with cycles := s.cycles - 1 }, m)

/-- Pointwise update of a byte table (Go array element assignment). -/
def funUpdate (f : Nat → Nat) (k v : Nat) : Nat → Nat :=
  fun i => if i = k then v % 256 else f i

/-- One OAM sprite entry as gathered by sprite evaluation,
src/unnamed/part_017 lines 56-58 (spriteInfo). -/
structure SpriteInfo where
  y : Nat
  id : Nat
  attr : Nat
  x : Nat
deriving DecidableEq, Repr

/-- The part of the PPU state that sprite evaluation reads and writes,
src/unnamed/part_017 lines 14-54: primary OAM, the current scanline, the
control and status registers, and the per-scanline sprite list. -/
structure PPUSpriteState where
  oam : Nat → Nat
  scanline : Int
  ctrl : Nat
  status : Nat
  spriteScanline : List SpriteInfo

/-- One iteration of the evaluation loop of evaluateSprites,
src/unnamed/part_017 lines 434-447: a sprite qualifies when the scanline lies
in [y, y+8); the first eight qualifiers are appended, every qualifier is
counted. -/
def evalSpriteStep (oam : Nat → Nat) (scanline : Int)
    (acc : List SpriteInfo × Nat) (i : Nat) : List SpriteInfo × Nat :=
  let yv := oam (i * 4)
  if scanline ≥ (yv : Int) ∧ scanline < (yv : Int) + 8 then
    (if acc.2 < 8 then
       acc.1 ++ [⟨yv, oam (i * 4 + 1), oam (i * 4 + 2), oam (i * 4 + 3)⟩]
     else acc.1,
     acc.2 + 1)
  else acc

/-- evaluateSprites, src/unnamed/part_017 lines 431-451: scan the 64 OAM
entries in order, collect at most eight qualifying sprites, and set the
sprite-overflow bit ($20) of the status register when more than eight
qualify.  Note the fixed sprite height of 8: the loop condition ignores the
sprite-size bit of PPUCTRL. -/
def evaluateSprites (p : PPUSpriteState) : PPUSpriteState :=
  let r := (List.range 64).foldl (evalSpriteStep p.oam p.scanline) ([], 0)
  { p with spriteScanline := r.1,
           status := if r.2 > 8 then p.status ||| 0x20 else p.status }

/-- Sprite height as the specification defines it (written from the spec
words, for comparison with the code): 8 or 16 pixels according to the
sprite-size bit (bit 5) of PPUCTRL. -/
def claimSpriteHeight (ctrl : Nat) : Nat :=
  if ctrl &&& 0x20 ≠ 0 then 16 else 8

/-- The sprite-qualification test actually applied by evaluateSprites
(height fixed at 8), used to state the amended claim. -/
def spriteQualifies (oam : Nat → Nat) (scanline : Int) (i : Nat) : Prop :=
  scanline ≥ (oam (i * 4) : Int) ∧ scanline < (oam (i * 4) : Int) + 8

instance (oam : Nat → Nat) (scanline : Int) (i : Nat) :
    Decidable (spriteQualifies oam scanline i) := by
  unfold spriteQualifies; infer_instance

/-- The sprite record built from OAM entry i, part_017 lines 438-443. -/
def spriteRecordOf (oam : Nat → Nat) (i : Nat) : SpriteInfo :=
  ⟨oam (i * 4), oam (i * 4 + 1), oam (i * 4 + 2), oam (i * 4 + 3)⟩

/-- The components of the bus state that the OAM-DMA write path touches or
could touch, src/bus/bus.go lines 17-28 together with the OAM side of the
PPU (part_017): the 2 KiB internal RAM, the PPU OAM address and OAM table,
and the remaining-cycle counter of the CPU. -/
structure BusDMAState where
  ram : Nat → Nat
  oamAddr : Nat
  oam : Nat → Nat
  cpuCycles : Nat

/-- Bus.Read, src/bus/bus.go lines 125-146, for a bus without a cartridge and
restricted to the internal-RAM window $0000-$1FFF (the PPU, controller and
APU read branches are not modelled here; the DMA theorems below only read
addresses below $2000, where this equals the source behavior: data =
b.ram[addr & 0x07FF]).  Unmatched addresses return the zero value of the Go
data variable. -/
def busReadRAM (st : BusDMAState) (addr : Nat) : Nat :=
  if addr ≤ 0x1FFF then st.ram (addr &&& 0x7FF) % 256 else 0

/-- DoOAMDMA, src/unnamed/part_017 lines 355-359: byte i of the incoming page
is stored at OAM index (oamAddr + i) mod 256. -/
def doOAMDMA (oamAddr : Nat) (oam : Nat → Nat) (data : Nat → Nat) : Nat → Nat :=
  (List.range 256).foldl (fun o i => funUpdate o ((oamAddr + i) % 256) (data i)) oam

/-- The $4014 case of Bus.Write, src/bus/bus.go lines 161-168: read the 256
bytes of page p through Bus.Read and hand them to the PPU OAM DMA in one
step.  No other field of the bus is touched; in particular the branch never
refers to the CPU, so the remaining-cycle counter passes through
unchanged. -/
def busWrite4014 (st : BusDMAState) (p : Nat) : BusDMAState :=
  let dmaAddr := (p % 256) <<< 8
  let oamData : Nat → Nat := fun i => busReadRAM st ((dmaAddr + i) % 65536)
  { st with oam := doOAMDMA st.oamAddr st.oam oamData }

/-- The frame-sequencer portion of the APU state, src/apu/apu.go lines
663-683 (authoritative document, starting at line 538): the cycle counter,
frame counter, sequencer mode and IRQ-inhibit flag.  The frame-IRQ flag is
the APU field read by Bus.Clock (src/bus/bus.go line 109) and serialized by
the APU state code (src/unnamed/part_009 line 35); it is carried here so
that the claim about it can be stated. -/
structure APUFrameState where
  cycle : Nat
  frameCounter : Nat
  sequenceMode : Nat
  irqInhibit : Bool
  frameIRQ : Bool

/-- The frame-sequencer part of APU.Clock, src/apu/apu.go lines 771-810
(authoritative document): every second CPU cycle the frame counter advances;
in 4-step mode the steps at 3729, 7457 and 11186 clock only channel state
(envelopes, linear, length and sweep counters, which are disjoint from the
fields modelled here), and the step at 14915 clocks channel state and resets
the frame counter - the source carries only a TODO comment where the frame
IRQ would be raised, so no field of this state other than the counters is
written.  In 5-step mode the final step is 18641.  The cycle counter always
advances (line 820). -/
def apuFrameClock (s : APUFrameState) : APUFrameState :=
  let s1 :=
    if s.cycle % 2 = 0 then
      let fc := s.frameCounter + 1
      if s.sequenceMode = 0 then
        if fc = 14915 then { s with frameCounter := 0 }
        else { s with frameCounter := fc }
      else
        if fc = 18641 then { s with frameCounter := 0 }
        else { s with frameCounter := fc }
    else s
  { s1 with cycle := s1.cycle + 1 }

/-- The IRQ line sampled by Bus.Clock each CPU cycle, src/bus/bus.go lines
104-111: the disjunction of the APU DMC IRQ, the APU frame IRQ and the
mapper IRQ. -/
def busIRQLine (dmcIRQ frameIRQ cartIRQ : Bool) : Bool :=
  dmcIRQ || frameIRQ || cartIRQ

/-- Internal state of the MMC1 mapper, src/cartridge/mmc1.go lines 6-26:
the four internal registers, the serial shift register with its write
counter, the WRAM-disable machinery, the 8 KiB WRAM, and the mirroring
field of the owning cartridge that the control register updates. -/
structure MMC1State where
  control : Nat
  chrBank0 : Nat
  chrBank1 : Nat
  prgBank : Nat
  shiftRegister : Nat
  writeCount : Nat
  wramDisabled : Bool
  wramDisableCounter : Nat
  mirror : Nat
  wram : Nat → Nat

/-- GetMirroring, src/cartridge/mmc1.go lines 190-202, using the mirroring
constants of cartridge.go lines 15-21 (horizontal 0, vertical 1, one-screen
lower 2, one-screen upper 3). -/
def mmc1GetMirroring (control : Nat) : Nat :=
  match control &&& 3 with
  | 0 => 2  -- MirrorOneScreenLower
  | 1 => 3  -- MirrorOneScreenUpper
  | 2 => 1  -- MirrorVertical
  | 3 => 0  -- MirrorHorizontal
  | _ => 0

/-- Selects one of the four MMC1 internal registers by the target number
used in CPUMapWrite ((addr >> 13) & 3): 0 control, 1 CHR bank 0, 2 CHR
bank 1, 3 PRG bank. -/
def mmc1Reg (m : MMC1State) (t : Nat) : Nat :=
  match t with
  | 0 => m.control
  | 1 => m.chrBank0
  | 2 => m.chrBank1
  | _ => m.prgBank

/-- CPUMapWrite, src/cartridge/mmc1.go lines 81-129.  A write to
$8000-$FFFF with bit 7 set resets the shift register and ORs $0C into
control; otherwise bit 0 of the data is shifted in from the top; on the
fifth write bits 13-14 of the address select the register latched from the
shift register (the control case refreshes the cartridge mirroring, the PRG
case drives the WRAM-disable machinery), after which the shift register
resets.  Writes to $6000-$7FFF go to WRAM when it is enabled.  The Bool is
the handled flag returned to the bus. -/
def mmc1CPUMapWrite (m : MMC1State) (addr data : Nat) : MMC1State × Bool :=
  if 0x8000 ≤ addr ∧ addr ≤ 0xFFFF then
    if data &&& 0x80 ≠ 0 then
      ({ m with shiftRegister := 0, writeCount := 0,
                control := m.control ||| 0x0C }, true)
    else
      let sr := (m.shiftRegister >>> 1) ||| ((data &&& 1) <<< 4)
      let wc := m.writeCount + 1
      if wc = 5 then
        let target := (addr >>> 13) &&& 3
        let m1 :=
          match target with
          | 0 => { m with control := sr, mirror := mmc1GetMirroring sr }
          | 1 => { m with chrBank0 := sr }
          | 2 => { m with chrBank1 := sr }
          | _ =>
              if (sr >>> 4) &&& 1 = 1 then
                { m with prgBank := sr, wramDisableCounter := 2 }
              else
                { m with prgBank := sr, wramDisabled := false }
        ({ m1 with shiftRegister := 0, writeCount := 0 }, true)
      else
        ({ m with shiftRegister := sr, writeCount := wc }, true)
  else if 0x6000 ≤ addr ∧ addr ≤ 0x7FFF then
    if ¬ m.wramDisabled then
      ({ m with wram := funUpdate m.wram (addr - 0x6000) data }, true)
    else (m, false)
  else (m, false)

/-- IRQ-related state of the MMC3 mapper, src/cartridge/mmc3.go lines 19-27:
the scanline counter, its reload latch and flags, the pending-IRQ line, and
the A12 edge filter (last observed A12 level and the low-duration tick
counter). -/
structure MMC3State where
  irqCounter : Nat
  irqLatch : Nat
  irqReload : Bool
  irqEnabled : Bool
  irqPending : Bool
  lastA12 : Bool
  a12Delay : Nat

/-- Bit 12 of a PPU address, as tested by checkA12 (mmc3.go line 198). -/
def a12Bit (addr : Nat) : Bool := addr &&& 0x1000 != 0

/-- clockIRQ, src/cartridge/mmc3.go lines 213-224: reload the counter from
the latch when it is zero or a reload is pending, otherwise decrement;
then raise the pending IRQ when the counter is zero and IRQs are
enabled. -/
def mmc3ClockIRQ (m : MMC3State) : MMC3State :=
  let m1 :=
    if m.irqCounter = 0 ∨ m.irqReload then
      { m with irqCounter := m.irqLatch, irqReload := false }
    else
      { m with irqCounter := m.irqCounter - 1 }
  if m1.irqCounter = 0 ∧ m1.irqEnabled then
    { m1 with irqPending := true }
  else m1

/-- checkA12, src/cartridge/mmc3.go lines 197-211: clock the IRQ counter on
a rising edge of A12 that follows at least two low-level ticks; record the
new A12 level, zeroing the low-duration counter on a high level. -/
def mmc3CheckA12 (m : MMC3State) (addr : Nat) : MMC3State :=
  let a12 := a12Bit addr
  let m1 :=
    if a12 ∧ ¬ m.lastA12 ∧ m.a12Delay ≥ 2 then mmc3ClockIRQ m else m
  if a12 then
    { m1 with lastA12 := true, a12Delay := 0 }
  else
    { m1 with lastA12 := false }

/-- Clock, src/cartridge/mmc3.go lines 237-242: once per CPU cycle, extend
the observed-low duration while A12 was last seen low. -/
def mmc3Clock (m : MMC3State) : MMC3State :=
  if ¬ m.lastA12 then { m with a12Delay := m.a12Delay + 1 } else m

/-- The qualifying condition for clocking the MMC3 IRQ counter, written in
the claim terms: a rising edge of A12 after at least two mapper ticks with
A12 observed low. -/
def mmc3RisingQualified (m : MMC3State) (addr : Nat) : Prop :=
  a12Bit addr = true ∧ m.lastA12 = false ∧ 2 ≤ m.a12Delay

instance (m : MMC3State) (addr : Nat) : Decidable (mmc3RisingQualified m addr) := by
  unfold mmc3RisingQualified; infer_instance

/-- The edge-recording tail of checkA12 (mmc3.go lines 205-210), split out
to state the claim. -/
def mmc3RecordEdge (m : MMC3State) (addr : Nat) : MMC3State :=
  if a12Bit addr then
    { m with lastA12 := true, a12Delay := 0 }
  else
    { m with lastA12 := false }

/-- Byte i of a ROM image (Go slice indexing on a byte slice; the source
only indexes within bounds, after the length check). -/
def byteAt (data : List Nat) (i : Nat) : Nat := data.getD i 0 % 256

/-- The cartridge produced by parsing, src/cartridge/cartridge.go lines
24-30: PRG and CHR storage (as length plus contents), the CHR-RAM flag, the
mapper id and the mirroring bits. -/
structure CartridgeData where
  prgLen : Nat
  prg : Nat → Nat
  chrLen : Nat
  chr : Nat → Nat
  isChrRAM : Bool
  mapperID : Nat
  mirror : Nat

/-- The iNES signature check of cartridge.New, cartridge.go line 50. -/
def inesMagicOK (data : List Nat) : Prop :=
  byteAt data 0 = 78 ∧ byteAt data 1 = 69 ∧ byteAt data 2 = 83 ∧
    byteAt data 3 = 0x1A

instance (data : List Nat) : Decidable (inesMagicOK data) := by
  unfold inesMagicOK; infer_instance

/-- The mapper id of a ROM image, cartridge.go line 96. -/
def inesMapperID (data : List Nat) : Nat :=
  (byteAt data 6 >>> 4) ||| (byteAt data 7 &&& 0xF0)

/-- The mapper ids accepted by NewMapper, cartridge.go lines 109-124
(cases 0 through 4). -/
def inesMapperSupported (data : List Nat) : Prop :=
  inesMapperID data < 5

instance (data : List Nat) : Decidable (inesMapperSupported data) := by
  unfold inesMapperSupported; infer_instance

/-- The PRG-ROM size declared by header byte 4, cartridge.go line 55. -/
def inesDeclaredPRGSize (data : List Nat) : Nat := byteAt data 4 * 16384

/-- cartridge.New, src/cartridge/cartridge.go lines 33-106, minus the file
system access: reject images shorter than 16 bytes, reject a bad signature,
compute sizes and the trainer offset, build zero-padded PRG storage (the
copy clamps to the bytes actually present: the source comment says the
exact expected size is allocated for compatibility with under-dumped ROMs),
build CHR storage or 8 KiB CHR RAM, and reject unsupported mapper ids
(NewMapper, lines 109-124; construction of a supported mapper never
fails). -/
def parseCartridge (data : List Nat) : Except String CartridgeData :=
  if data.length < 16 then
    .error "file is too small to be a valid NES ROM"
  else if ¬ inesMagicOK data then
    .error "invalid NES ROM format: missing iNES signature"
  else
    let prgRomSize := byteAt data 4 * 16384
    let chrRomSize := byteAt data 5 * 8192
    let hasTrainer := byteAt data 6 &&& 0x04 ≠ 0
    let offset := if hasTrainer then 16 + 512 else 16
    let prg : Nat → Nat := fun i =>
      if i < prgRomSize ∧ offset + i < data.length then byteAt data (offset + i)
      else 0
    let chrLen := if chrRomSize > 0 then chrRomSize else 8192
    let chr : Nat → Nat := fun i =>
      if chrRomSize > 0 ∧ i < chrRomSize ∧ offset + prgRomSize + i < data.length then
        byteAt data (offset + prgRomSize + i)
      else 0
    let isChrRAM := ¬ (chrRomSize > 0)
    let mapperID := inesMapperID data
    let mirror := (byteAt data 6 &&& 1) ||| ((byteAt data 6 >>> 3) &&& 2)
    if inesMapperSupported data then
      .ok { prgLen := prgRomSize, prg := prg, chrLen := chrLen, chr := chr,
            isChrRAM := isChrRAM, mapperID := mapperID, mirror := mirror }
    else
      .error "unsupported mapper"

/-- A 16-byte image: valid signature, one declared 16 KiB PRG bank, no PRG
body at all.  Used to exercise the short-PRG acceptance path. -/
def shortPRGImage : List Nat :=
  [78, 69, 83, 0x1A, 1, 0, 0, 0, 0, 0, 0, 0, 0, 0, 0, 0]

/-- Memory image for the ADC-immediate cycle measurement: ADC #$07 at the
reset point $8000. -/
def adcExampleMem : Mem :=
  fun a => if a = 0x8000 then 0x69 else if a = 0x8001 then 0x07 else 0

/-- A CPU about to fetch at $8000 with empty cycle counter. -/
def cpuAt8000 : CPUS :=
  { pc := 0x8000, sp := 0xFD, a := 0x01, x := 0, y := 0, p := 0x24,
    opcode := 0, cycles := 0, fetched := 0, addrAbs := 0, addrRel := 0 }

/-- All-zero memory: the byte at $8000 is opcode $00 (BRK on a 6502). -/
def zeroMem : Mem := fun _ => 0

/-- The APU frame-sequencer state one tick before the final 4-step point,
with IRQs not inhibited and the frame IRQ clear. -/
def apuFinalStepState : APUFrameState :=
  { cycle := 29828, frameCounter := 14914, sequenceMode := 0,
    irqInhibit := false, frameIRQ := false }

/-- A bus whose RAM page 0 holds the pattern i*3 mod 256, with OAM address 0,
blank OAM and an idle CPU. -/
def dmaExampleBus : BusDMAState :=
  { ram := fun i => (i * 3) % 256, oamAddr := 0, oam := fun _ => 0,
    cpuCycles := 0 }

/-- A PPU state on scanline 10 with 8x16 sprites selected in PPUCTRL and a
single sprite at the top of OAM with Y = 0 (all other OAM sprites at
Y = 200): an 8x16 sprite covering scanlines 0-15. -/
def tallSpriteState : PPUSpriteState :=
  { oam := fun j => if j = 0 then 0 else 200, scanline := 10,
    ctrl := 0x20, status := 0, spriteScanline := [] }

/-- The button pattern of the controller-latch scenario: A, Select, Up and
Left pressed (even indices), the others released. -/
def exampleButtons : Nat → Bool := fun i => i % 2 == 0

/-- An MMC3 state with the counter at 1, a latch of 5, IRQs enabled and no
pending IRQ, having observed A12 low for three mapper ticks. -/
def mmc3ExampleState : MMC3State :=
  { irqCounter := 1, irqLatch := 5, irqReload := false, irqEnabled := true,
    irqPending := false, lastA12 := false, a12Delay := 3 }

/-- Iterated bus-driven CPU clock. -/
def cpuClockN : Nat → CPUS → Mem → CPUS × Mem
  | 0, s, m => (s, m)
  | n + 1, s, m =>
      let r := cpuClock s m
      cpuClockN n r.1 r.2

/-- An MMC1 mapper in the power-on configuration of newMMC1
(src/cartridge/mmc1.go lines 28-37): control $0C, everything else zero,
WRAM enabled and blank. -/
def mmc1ExampleState : MMC1State :=
  { control := 0x0C, chrBank0 := 0, chrBank1 := 0, prgBank := 0,
    shiftRegister := 0, writeCount := 0, wramDisabled := false,
    wramDisableCounter := 0, mirror := 0, wram := fun _ => 0 }

/-- Whether a parse produced a cartridge (the error-free path of
cartridge.New). -/
def exceptOk (e : Except String CartridgeData) : Bool :=
  match e with
  | .ok _ => true
  | .error _ => false

/-- Flag(B) falls through the character switch to the default 0: the mask
constant 16 is not the ASCII code of any flag letter. -/
theorem flagIndex_flagB : flagIndex flagB = 0 := rfl

/-- Flag(U) falls through the character switch to the default 0. -/
theorem flagIndex_flagU : flagIndex flagU = 0 := rfl

/-- C1: the claim says an ADC with immediate addressing consumes exactly 2
cycles (the base cycle count of opcode $69, with no page-cross or branch
penalty possible).  The code disagrees: Clock adds the unconditional
extra-cycle report of the adc operation to the base count, so the first
Clock call of the instruction leaves 2 further cycles pending (3 consumed in
total, the counter reaching 0 only after the third call), even though the
lookup-table base is 2 and the addressing mode reported no page cross.  The
arithmetic result itself is correct (A = $01 + $07 = $08). -/
theorem adc_immediate_consumes_three_cycles :
    (lookupTable 0x69).cycles = 2 ∧
    (cpuClock cpuAt8000 adcExampleMem).1.cycles = 2 ∧
    (cpuClockN 3 cpuAt8000 adcExampleMem).1.cycles = 0 ∧
    (cpuClockN 2 cpuAt8000 adcExampleMem).1.cycles = 1 ∧
    (cpuClock cpuAt8000 adcExampleMem).1.a = 0x08 := by
  refine ⟨rfl, by decide, by decide, by decide, by decide⟩

/-- C2: the claim describes the BRK sequence for opcode $00 (push PC+1,
push P with B and U set, set I, load the vector at $FFFE/F, 7 cycles).  The
lookup table has no entry for $00, so the XXX filler makes it a 2-cycle
implied NOP: executing it from a quiescent state only advances PC by one,
leaves SP, P and all of memory untouched, and finishes after 2 cycles. -/
theorem brk_opcode_is_two_cycle_nop :
    lookupTable 0x00 = ⟨"XXX", .nop, .imp, "imp", 2⟩ ∧
    (cpuClock cpuAt8000 zeroMem).1.pc = 0x8001 ∧
    (cpuClock cpuAt8000 zeroMem).1.sp = 0xFD ∧
    (cpuClock cpuAt8000 zeroMem).1.p = 0x24 ∧
    (cpuClock cpuAt8000 zeroMem).1.cycles = 1 ∧
    (cpuClock cpuAt8000 zeroMem).2 = zeroMem ∧
    (cpuClockN 2 cpuAt8000 zeroMem).1.cycles = 0 := by
  refine ⟨rfl, by decide, by decide, by decide, by decide, rfl, by decide⟩

/-- C9: after RTI, the status register equals the popped byte with bit 0
cleared: the two setFlag calls pass the mask constants B=16 and U=32, both
of which Flag maps to bit position 0, so each clears the carry bit and
neither touches bits 4 and 5. -/
theorem rti_pops_p_with_bit0_cleared (s : CPUS) (m : Mem) :
    (runOp OpKind.rti s m).1.p
      = (memRead m (0x100 + (s.sp + 1) % 256) &&& 254) &&& 254 := rfl

/-- C9: for every CPU state and every stack contents, the status register
after RTI has carry (bit 0) equal to 0 - bit 0 of the popped status byte
never survives - while bits 4 (B) and 5 (U) of the popped byte are carried
into P unchanged. -/
theorem rti_clears_carry_preserves_b_u (s : CPUS) (m : Mem) :
    ((runOp OpKind.rti s m).1.p &&& 0x01 = 0) ∧
    ((runOp OpKind.rti s m).1.p &&& 0x10
        = memRead m (0x100 + (s.sp + 1) % 256) &&& 0x10) ∧
    ((runOp OpKind.rti s m).1.p &&& 0x20
        = memRead m (0x100 + (s.sp + 1) % 256) &&& 0x20) := by
  rw [rti_pops_p_with_bit0_cleared]
  refine ⟨?_, ?_, ?_⟩
  · rw [Nat.and_assoc, Nat.and_assoc,
      show (254:Nat) &&& (254 &&& 1) = 0 from rfl, Nat.and_zero]
  · rw [Nat.and_assoc, Nat.and_assoc,
      show (254:Nat) &&& (254 &&& 16) = 16 from rfl]
  · rw [Nat.and_assoc, Nat.and_assoc,
      show (254:Nat) &&& (254 &&& 32) = 32 from rfl]

/-- C3: the claim says that when the 4-step frame sequencer reaches its
final step with IRQ inhibit clear, the frame-IRQ flag becomes true and the
per-cycle IRQ sampling of the bus observes it.  The code disagrees: the
final-step branch of APU.Clock resets the frame counter but carries only a
TODO comment where the IRQ would be raised, so the frame-IRQ flag stays
false and the IRQ line sampled by Bus.Clock stays deasserted (no other IRQ
source pending). -/
theorem frame_irq_never_asserted_in_four_step_mode (s : APUFrameState)
    (h0 : s.sequenceMode = 0) (h1 : s.irqInhibit = false)
    (h2 : s.cycle % 2 = 0) (h3 : s.frameCounter = 14914)
    (h4 : s.frameIRQ = false) :
    (apuFrameClock s).frameIRQ = false ∧
    (apuFrameClock s).frameCounter = 0 ∧
    busIRQLine false (apuFrameClock s).frameIRQ false = false := by
  simp [apuFrameClock, busIRQLine, h0, h2, h3, h4]

/-- Witness for the frame-IRQ theorem at the concrete state one tick before
the 14914.5-cycle point. -/
theorem frame_irq_never_asserted_witness :
    (apuFrameClock apuFinalStepState).frameIRQ = false ∧
    (apuFrameClock apuFinalStepState).frameCounter = 0 ∧
    busIRQLine false (apuFrameClock apuFinalStepState).frameIRQ false = false :=
  frame_irq_never_asserted_in_four_step_mode apuFinalStepState
    rfl rfl (by decide) rfl rfl

/-- A low-strobe read below index 8 returns the indexed button and advances
the index (controller.go lines 29-44). -/
theorem ctrlRead_step_low (x : Ctrl) (hs : x.strobe = 0) (h8 : x.index < 8) :
    ctrlRead x = ((if x.buttons x.index then 1 else 0),
      { x with index := x.index + 1 }) := by
  unfold ctrlRead
  rw [if_neg (by omega), if_pos hs]

/-- A read at index 8 or beyond returns 1 and leaves the state unchanged
(controller.go lines 30-32). -/
theorem ctrlRead_step_high (x : Ctrl) (h8 : x.index ≥ 8) :
    ctrlRead x = (1, x) := by
  unfold ctrlRead
  rw [if_pos h8]

/-- Invariant: in every reachable controller state, a high strobe implies a
zero read index (the only way strobe becomes 1 is a write that also resets
the index, and reads with strobe high do not advance it). -/
theorem ctrl_strobe_high_index_zero {c : Ctrl} (h : CtrlReachable c) :
    c.strobe = 1 → c.index = 0 := by
  induction h with
  | base => intro hs; simp [ctrlNew] at hs
  | setButtons c b _ ih => simpa [ctrlSetButtons] using ih
  | write c data _ ih =>
      simp only [ctrlWrite]
      split
      · intro _; rfl
      · next h => intro hsx; exact absurd hsx h
  | read c _ ih =>
      by_cases h8 : c.index ≥ 8
      · rw [ctrlRead_step_high c h8]; exact ih
      · by_cases hs0 : c.strobe = 0
        · rw [ctrlRead_step_low c hs0 (by omega)]
          intro hsx
          exact absurd hsx (by simp [hs0])
        · have : ctrlRead c = ((if c.buttons c.index then 1 else 0), c) := by
            unfold ctrlRead
            rw [if_neg h8, if_neg hs0]
          rw [this]
          exact ih

/-- After n reads from a low-strobe state with index 0, the strobe and
buttons are unchanged and the index is min n 8 (it saturates because reads
at index 8 return early). -/
theorem ctrlReadN_props (c : Ctrl) (h0 : c.strobe = 0) (hi : c.index = 0) (n : Nat) :
    (ctrlReadN c n).strobe = 0 ∧ (ctrlReadN c n).buttons = c.buttons ∧
    (ctrlReadN c n).index = min n 8 := by
  induction n with
  | zero => simp [ctrlReadN, h0, hi]
  | succ n ih =>
      obtain ⟨hs, hb, hx⟩ := ih
      have step : ctrlReadN c (n + 1) = (ctrlRead (ctrlReadN c n)).2 := rfl
      by_cases hk : n < 8
      · have h8 : (ctrlReadN c n).index < 8 := by omega
        rw [step, ctrlRead_step_low _ hs h8]
        refine ⟨hs, hb, ?_⟩
        show (ctrlReadN c n).index + 1 = min (n + 1) 8
        omega
      · have h8 : (ctrlReadN c n).index ≥ 8 := by omega
        rw [step, ctrlRead_step_high _ h8]
        refine ⟨hs, hb, ?_⟩
        show (ctrlReadN c n).index = min (n + 1) 8
        omega

/-- The value of read number k+1 from a low-strobe state with index 0: the
button at position k for the first eight reads, 1 afterwards. -/
theorem ctrlRead_value (c : Ctrl) (h0 : c.strobe = 0) (hi : c.index = 0) (k : Nat) :
    (ctrlRead (ctrlReadN c k)).1
      = if k < 8 then (if c.buttons k then 1 else 0) else 1 := by
  obtain ⟨hs, hb, hx⟩ := ctrlReadN_props c h0 hi k
  by_cases hk : k < 8
  · have h8 : (ctrlReadN c k).index < 8 := by omega
    have hxk : (ctrlReadN c k).index = k := by omega
    rw [ctrlRead_step_low _ hs h8]
    rw [if_pos hk]
    simp only [hb, hxk]
  · have h8 : (ctrlReadN c k).index ≥ 8 := by omega
    rw [ctrlRead_step_high _ h8]
    rw [if_neg hk]

/-- C7: for every reachable controller state with the strobe held high,
every read returns the value of button A (index 0) without changing the
state; and after the strobe is dropped by writing 0, read number k+1
returns button k (A, B, Select, Start, Up, Down, Left, Right order, 1 for
pressed) for k < 8 and returns 1 from the ninth read on. -/
theorem controller_strobe_and_shift_sequence (c : Ctrl)
    (hr : CtrlReachable c) (hs : c.strobe = 1) :
    ((ctrlRead c).1 = (if c.buttons 0 then 1 else 0)) ∧
    ((ctrlRead c).2 = c) ∧
    (∀ k, (ctrlRead (ctrlReadN (ctrlWrite c 0) k)).1
        = if k < 8 then (if c.buttons k then 1 else 0) else 1) := by
  have hidx : c.index = 0 := ctrl_strobe_high_index_zero hr hs
  have hr1 : ctrlRead c = ((if c.buttons c.index then 1 else 0), c) := by
    unfold ctrlRead
    rw [if_neg (by omega), if_neg (by omega)]
  refine ⟨by rw [hr1, hidx], by rw [hr1], ?_⟩
  intro k
  have hw : ctrlWrite c 0 = { c with strobe := 0 &&& 1 } := by
    simp only [ctrlWrite]
    rw [if_neg (by decide)]
  rw [hw]
  exact ctrlRead_value { c with strobe := 0 &&& 1 } rfl hidx k

/-- Witness: the controller of the latch scenario (buttons A, Select, Up,
Left pressed) after a strobe-high write; read values follow the claimed
sequence. -/
theorem controller_sequence_witness :
    (ctrlRead (ctrlWrite (ctrlSetButtons ctrlNew exampleButtons) 1)).1 = 1 ∧
    (ctrlRead (ctrlReadN
        (ctrlWrite (ctrlWrite (ctrlSetButtons ctrlNew exampleButtons) 1) 0) 1)).1 = 0 ∧
    (ctrlRead (ctrlReadN
        (ctrlWrite (ctrlWrite (ctrlSetButtons ctrlNew exampleButtons) 1) 0) 8)).1 = 1 := by
  have hr : CtrlReachable (ctrlWrite (ctrlSetButtons ctrlNew exampleButtons) 1) :=
    CtrlReachable.write _ 1 (CtrlReachable.setButtons _ _ CtrlReachable.base)
  have hs : (ctrlWrite (ctrlSetButtons ctrlNew exampleButtons) 1).strobe = 1 := rfl
  obtain ⟨h1, _, h3⟩ := controller_strobe_and_shift_sequence _ hr hs
  refine ⟨?_, ?_, ?_⟩
  · rw [h1]; decide
  · rw [h3 1]; decide
  · rw [h3 8]; decide

/-- A qualifying OAM entry advances the count and is appended while fewer
than eight sprites have been gathered. -/
theorem evalSpriteStep_pos (oam : Nat → Nat) (scan : Int)
    (acc : List SpriteInfo) (count i : Nat)
    (h : spriteQualifies oam scan i) :
    evalSpriteStep oam scan (acc, count) i
      = (if count < 8 then acc ++ [spriteRecordOf oam i] else acc, count + 1) := by
  unfold spriteQualifies at h
  dsimp only [evalSpriteStep, spriteRecordOf]
  rw [if_pos h]

/-- A non-qualifying OAM entry leaves the accumulator untouched. -/
theorem evalSpriteStep_neg (oam : Nat → Nat) (scan : Int)
    (acc : List SpriteInfo) (count i : Nat)
    (h : ¬ spriteQualifies oam scan i) :
    evalSpriteStep oam scan (acc, count) i = (acc, count) := by
  unfold spriteQualifies at h
  dsimp only [evalSpriteStep]
  rw [if_neg h]

/-- The evaluation loop gathers, in order, the first 8 - count qualifying
entries of the index list and counts all qualifying entries. -/
theorem evalSprites_foldl_spec (oam : Nat → Nat) (scan : Int) (l : List Nat) :
    ∀ (acc : List SpriteInfo) (count : Nat),
    l.foldl (evalSpriteStep oam scan) (acc, count)
      = (acc ++ (((l.filter fun i => decide (spriteQualifies oam scan i)).take
            (8 - count)).map (spriteRecordOf oam)),
         count + (l.filter fun i => decide (spriteQualifies oam scan i)).length) := by
  induction l with
  | nil => intro acc count; simp
  | cons hd tl ih =>
      intro acc count
      have hfilq : ∀ (h : spriteQualifies oam scan hd),
          (hd :: tl).filter (fun i => decide (spriteQualifies oam scan i))
            = hd :: tl.filter (fun i => decide (spriteQualifies oam scan i)) := by
        intro h; simp [List.filter_cons, h]
      by_cases hq : spriteQualifies oam scan hd
      · rw [List.foldl_cons, evalSpriteStep_pos oam scan acc count hd hq, ih,
          hfilq hq]
        by_cases hc : count < 8
        · obtain ⟨d, hd8⟩ : ∃ d, 8 - count = d + 1 := ⟨8 - count - 1, by omega⟩
          have hd8x : 8 - (count + 1) = d := by omega
          rw [if_pos hc, hd8, hd8x, List.take_succ_cons, List.map_cons,
            List.length_cons]
          simp only [Prod.mk.injEq]
          refine ⟨?_, by omega⟩
          simp
        · have h0 : 8 - count = 0 := by omega
          have h1 : 8 - (count + 1) = 0 := by omega
          rw [if_neg hc, h0, h1]
          simp only [List.take_zero, List.map_nil, List.append_nil,
            List.length_cons, Prod.mk.injEq]
          exact ⟨trivial, by omega⟩
      · have hfiln : (hd :: tl).filter (fun i => decide (spriteQualifies oam scan i))
            = tl.filter (fun i => decide (spriteQualifies oam scan i)) := by
          simp [List.filter_cons, hq]
        rw [List.foldl_cons, evalSpriteStep_neg oam scan acc count hd hq, ih, hfiln]

/-- C5 (amended): sprite evaluation selects from primary OAM, in OAM order,
up to 8 sprites whose Y range contains the scanline being evaluated with
the sprite height fixed at 8 pixels (the sprite-size bit of PPUCTRL is not
consulted), and sets the sprite-overflow status bit exactly when a 9th
sprite qualifies; OAM, the scanline and PPUCTRL are read but not written. -/
theorem sprite_eval_fixed_height_eight (p : PPUSpriteState) :
    (evaluateSprites p).spriteScanline
      = (((List.range 64).filter
            fun i => decide (spriteQualifies p.oam p.scanline i)).take 8).map
          (spriteRecordOf p.oam) ∧
    (evaluateSprites p).status
      = (if 8 < ((List.range 64).filter
            fun i => decide (spriteQualifies p.oam p.scanline i)).length
         then p.status ||| 0x20 else p.status) ∧
    (evaluateSprites p).oam = p.oam ∧
    (evaluateSprites p).scanline = p.scanline ∧
    (evaluateSprites p).ctrl = p.ctrl := by
  have h := evalSprites_foldl_spec p.oam p.scanline (List.range 64) [] 0
  simp only [evaluateSprites]
  rw [h]
  simp

/-- C5 (counterexample to the claim as stated): with the sprite-size bit of
PPUCTRL selecting 8x16 sprites, a sprite with Y = 0 covers scanline 10
according to the claim (its Y range with height 16 contains the scanline),
yet sprite evaluation selects nothing and reports no overflow: the code
tests a fixed height of 8. -/
theorem sprite_eval_ignores_sprite_size_counterexample :
    claimSpriteHeight tallSpriteState.ctrl = 16 ∧
    ((tallSpriteState.oam 0 : Int) ≤ tallSpriteState.scanline ∧
      tallSpriteState.scanline
        < (tallSpriteState.oam 0 : Int) + claimSpriteHeight tallSpriteState.ctrl) ∧
    (evaluateSprites tallSpriteState).spriteScanline = [] ∧
    (evaluateSprites tallSpriteState).status = 0 := by
  decide

/-- A fold of pointwise updates leaves every address that none of the
updates target unchanged. -/
theorem foldl_update_ne (data g : Nat → Nat) (l : List Nat) :
    ∀ (f : Nat → Nat) (x : Nat), (∀ k ∈ l, g k ≠ x) →
      (l.foldl (fun o i => funUpdate o (g i) (data i)) f) x = f x := by
  induction l with
  | nil => intro f x _; rfl
  | cons hd tl ih =>
      intro f x hx
      rw [List.foldl_cons, ih _ x (fun k hk => hx k (List.mem_cons_of_mem _ hk))]
      unfold funUpdate
      rw [if_neg (fun he => hx hd (List.mem_cons_self _ _) he.symm)]

/-- A fold of pointwise updates over distinct addresses stores, at the
address targeted by entry i, exactly the value of entry i. -/
theorem foldl_update_mem (data g : Nat → Nat) (l : List Nat) :
    ∀ (f : Nat → Nat) (i : Nat), l.Nodup → i ∈ l →
      (∀ k ∈ l, g k = g i → k = i) →
      (l.foldl (fun o i => funUpdate o (g i) (data i)) f) (g i) = data i % 256 := by
  induction l with
  | nil => intro f i _ hi _; cases hi
  | cons hd tl ih =>
      intro f i hnd hi huniq
      rw [List.foldl_cons]
      rcases List.mem_cons.mp hi with he | hm
      · subst he
        rw [foldl_update_ne data g tl _ (g i) ?hne]
        · unfold funUpdate
          rw [if_pos rfl]
        case hne =>
          intro k hk hg
          have hki : k = i := huniq k (List.mem_cons_of_mem _ hk) hg
          subst hki
          exact (List.nodup_cons.mp hnd).1 hk
      · exact ih (funUpdate f (g hd) (data hd)) i (List.nodup_cons.mp hnd).2 hm
          (fun k hk hg => huniq k (List.mem_cons_of_mem _ hk) hg)

/-- The OAM DMA loop writes byte i of the page at OAM index
(oamAddr + i) mod 256. -/
theorem doOAMDMA_at (a : Nat) (oam data : Nat → Nat) (i : Nat) (hi : i < 256) :
    doOAMDMA a oam data ((a + i) % 256) = data i % 256 := by
  unfold doOAMDMA
  exact foldl_update_mem data (fun k => (a + k) % 256) (List.range 256) oam i
    (List.nodup_range 256) (List.mem_range.mpr hi)
    (fun k hk hg => by
      have hk2 := List.mem_range.mp hk
      have hg2 : (a + k) % 256 = (a + i) % 256 := hg
      omega)

set_option maxRecDepth 16384 in
/-- C4 (counterexample to the claim as stated): writing page 0 to $4014 on
the example bus copies RAM byte 5 into OAM slot 5 (the copy does happen,
atomically), but the remaining-cycle counter of the CPU stays at 0: the
$4014 branch of Bus.Write inserts no stall at all, while the claim requires
513 (or 514) stall cycles before the next instruction cycle. -/
theorem oam_dma_no_stall_counterexample :
    (busWrite4014 dmaExampleBus 0).cpuCycles = 0 ∧
    (busWrite4014 dmaExampleBus 0).oam 5 = dmaExampleBus.ram 5 ∧
    ((0:Nat) ≠ 513 ∧ (0:Nat) ≠ 514) := by
  refine ⟨rfl, by decide, by decide, by decide⟩

set_option maxRecDepth 16384 in
/-- C4 (amended): writing byte p (p addressing a page inside internal RAM)
to $4014 copies the 256 bytes starting at CPU address $100*p into OAM as
one atomic step - byte i landing at OAM index (OAMADDR + i) mod 256 - and
the CPU is not stalled: its remaining-cycle counter, like every other bus
component outside OAM, is untouched. -/
theorem oam_dma_atomic_copy_without_stall (st : BusDMAState) (p : Nat)
    (hp : p < 0x20) :
    (busWrite4014 st p).cpuCycles = st.cpuCycles ∧
    (busWrite4014 st p).ram = st.ram ∧
    (busWrite4014 st p).oamAddr = st.oamAddr ∧
    ∀ i, i < 256 →
      (busWrite4014 st p).oam ((st.oamAddr + i) % 256)
        = st.ram ((p * 256 + i) &&& 0x7FF) % 256 := by
  refine ⟨rfl, rfl, rfl, ?_⟩
  intro i hi
  have hoam : (busWrite4014 st p).oam
      = doOAMDMA st.oamAddr st.oam
          (fun j => busReadRAM st ((((p % 256) <<< 8) + j) % 65536)) := rfl
  rw [hoam, doOAMDMA_at _ _ _ i hi]
  have hsh : (p % 256) <<< 8 = p * 256 := by
    rw [Nat.mod_eq_of_lt (by omega), Nat.shiftLeft_eq]
  have h1 : (((p % 256) <<< 8) + i) % 65536 = p * 256 + i := by
    rw [hsh]
    omega
  rw [h1]
  unfold busReadRAM
  rw [if_pos (by omega)]
  omega

set_option maxRecDepth 16384 in
/-- Witness for the amended OAM-DMA theorem at page 0 of the example bus. -/
theorem oam_dma_atomic_copy_witness :
    (busWrite4014 dmaExampleBus 0).cpuCycles = dmaExampleBus.cpuCycles ∧
    (busWrite4014 dmaExampleBus 0).oam ((dmaExampleBus.oamAddr + 7) % 256)
      = dmaExampleBus.ram ((0 * 256 + 7) &&& 0x7FF) % 256 := by
  obtain ⟨h1, _, _, h4⟩ := oam_dma_atomic_copy_without_stall dmaExampleBus 0 (by decide)
  exact ⟨h1, h4 7 (by decide)⟩

/-- A write to $8000-$FFFF with bit 7 set resets the serial interface and
ORs $0C into control (mmc1.go lines 83-88). -/
theorem mmc1_write_reset (m : MMC1State) (addr data : Nat)
    (h1 : 0x8000 ≤ addr) (h2 : addr ≤ 0xFFFF) (h3 : data &&& 0x80 ≠ 0) :
    mmc1CPUMapWrite m addr data
      = ({ m with
             shiftRegister := 0
             writeCount := 0
             control := m.control ||| 0x0C }, true) := by
  simp only [mmc1CPUMapWrite]
  rw [if_pos ⟨h1, h2⟩, if_pos h3]

/-- A write to $8000-$FFFF with bit 7 clear that is not the fifth of a run
shifts bit 0 of the data into the register from the top (mmc1.go lines
96-98, 119-120). -/
theorem mmc1_write_shift (m : MMC1State) (addr data : Nat)
    (h1 : 0x8000 ≤ addr) (h2 : addr ≤ 0xFFFF) (h3 : data &&& 0x80 = 0)
    (h4 : m.writeCount + 1 ≠ 5) :
    mmc1CPUMapWrite m addr data
      = ({ m with
             shiftRegister := (m.shiftRegister >>> 1) ||| ((data &&& 1) <<< 4)
             writeCount := m.writeCount + 1 }, true) := by
  simp only [mmc1CPUMapWrite]
  rw [if_pos ⟨h1, h2⟩, if_neg (fun hc => hc h3), if_neg h4]

/-- The fifth write of a run latches the assembled shift register into the
register selected by bits 13-14 of the address and empties the serial
interface (mmc1.go lines 100-120). -/
theorem mmc1_write_fifth (m : MMC1State) (addr data : Nat)
    (h1 : 0x8000 ≤ addr) (h2 : addr ≤ 0xFFFF) (h3 : data &&& 0x80 = 0)
    (h4 : m.writeCount = 4) :
    mmc1CPUMapWrite m addr data
      = (let sr := (m.shiftRegister >>> 1) ||| ((data &&& 1) <<< 4)
         let m1 :=
           match (addr >>> 13) &&& 3 with
           | 0 => { m with control := sr, mirror := mmc1GetMirroring sr }
           | 1 => { m with chrBank0 := sr }
           | 2 => { m with chrBank1 := sr }
           | _ =>
               if (sr >>> 4) &&& 1 = 1 then
                 { m with prgBank := sr, wramDisableCounter := 2 }
               else
                 { m with prgBank := sr, wramDisabled := false }
         ({ m1 with shiftRegister := 0, writeCount := 0 }, true)) := by
  simp only [mmc1CPUMapWrite]
  rw [if_pos ⟨h1, h2⟩, if_neg (fun hc => hc h3),
    if_pos (show m.writeCount + 1 = 5 by rw [h4])]

/-- Five LSB-first shift steps starting from an empty register assemble the
value b1 + 2 b2 + 4 b3 + 8 b4 + 16 b5. -/
theorem mmc1_shift_value (b1 b2 b3 b4 b5 : Nat)
    (h1 : b1 ≤ 1) (h2 : b2 ≤ 1) (h3 : b3 ≤ 1) (h4 : b4 ≤ 1) (h5 : b5 ≤ 1) :
    ((((((((((0 : Nat) >>> 1) ||| (b1 <<< 4)) >>> 1) ||| (b2 <<< 4)) >>> 1)
        ||| (b3 <<< 4)) >>> 1) ||| (b4 <<< 4)) >>> 1) ||| (b5 <<< 4)
      = b1 + 2 * b2 + 4 * b3 + 8 * b4 + 16 * b5 := by
  interval_cases b1 <;> interval_cases b2 <;> interval_cases b3 <;>
    interval_cases b4 <;> interval_cases b5 <;> decide

/-- C6: (a) every CPU write to $8000-$FFFF with bit 7 set leaves the serial
shift register empty (write count 0) and ORs $0C into the control register;
(b) every run of exactly five writes with bit 7 clear, starting from an
empty shift register, assembles the 5-bit value from bit 0 of each write,
LSB first, stores it into the one of the four internal registers (control,
CHR bank 0, CHR bank 1, PRG bank) selected by bits 13-14 of the fifth
write address, leaves the other three registers unchanged, and empties the
shift register again. -/
theorem mmc1_serial_shift_protocol (m : MMC1State)
    (a1 a2 a3 a4 a5 d1 d2 d3 d4 d5 : Nat)
    (hm0 : m.writeCount = 0) (hm1 : m.shiftRegister = 0)
    (hA1 : 0x8000 ≤ a1) (hB1 : a1 ≤ 0xFFFF)
    (hA2 : 0x8000 ≤ a2) (hB2 : a2 ≤ 0xFFFF)
    (hA3 : 0x8000 ≤ a3) (hB3 : a3 ≤ 0xFFFF)
    (hA4 : 0x8000 ≤ a4) (hB4 : a4 ≤ 0xFFFF)
    (hA5 : 0x8000 ≤ a5) (hB5 : a5 ≤ 0xFFFF)
    (hD1 : d1 &&& 0x80 = 0) (hD2 : d2 &&& 0x80 = 0) (hD3 : d3 &&& 0x80 = 0)
    (hD4 : d4 &&& 0x80 = 0) (hD5 : d5 &&& 0x80 = 0) :
    (∀ addr data, 0x8000 ≤ addr → addr ≤ 0xFFFF → data &&& 0x80 ≠ 0 →
        (mmc1CPUMapWrite m addr data).1.shiftRegister = 0 ∧
        (mmc1CPUMapWrite m addr data).1.writeCount = 0 ∧
        (mmc1CPUMapWrite m addr data).1.control = m.control ||| 0x0C) ∧
    ((mmc1CPUMapWrite (mmc1CPUMapWrite (mmc1CPUMapWrite
        (mmc1CPUMapWrite (mmc1CPUMapWrite m a1 d1).1 a2 d2).1 a3 d3).1
        a4 d4).1 a5 d5).1.writeCount = 0 ∧
     (mmc1CPUMapWrite (mmc1CPUMapWrite (mmc1CPUMapWrite
        (mmc1CPUMapWrite (mmc1CPUMapWrite m a1 d1).1 a2 d2).1 a3 d3).1
        a4 d4).1 a5 d5).1.shiftRegister = 0 ∧
     mmc1Reg ((mmc1CPUMapWrite (mmc1CPUMapWrite (mmc1CPUMapWrite
        (mmc1CPUMapWrite (mmc1CPUMapWrite m a1 d1).1 a2 d2).1 a3 d3).1
        a4 d4).1 a5 d5).1) ((a5 >>> 13) &&& 3)
       = (d1 &&& 1) + 2 * (d2 &&& 1) + 4 * (d3 &&& 1) + 8 * (d4 &&& 1)
           + 16 * (d5 &&& 1) ∧
     (∀ t, t < 4 → t ≠ (a5 >>> 13) &&& 3 →
        mmc1Reg ((mmc1CPUMapWrite (mmc1CPUMapWrite (mmc1CPUMapWrite
          (mmc1CPUMapWrite (mmc1CPUMapWrite m a1 d1).1 a2 d2).1 a3 d3).1
          a4 d4).1 a5 d5).1) t = mmc1Reg m t)) := by
  constructor
  · intro addr data hA hB hD
    rw [mmc1_write_reset m addr data hA hB hD]
    exact ⟨rfl, rfl, rfl⟩
  · have e1 : (mmc1CPUMapWrite m a1 d1).1
        = { m with
              shiftRegister := ((0:Nat) >>> 1) ||| ((d1 &&& 1) <<< 4)
              writeCount := 1 } := by
      rw [mmc1_write_shift m a1 d1 hA1 hB1 hD1 (by omega), hm1, hm0]
    have e2 : (mmc1CPUMapWrite
        { m with
            shiftRegister := ((0:Nat) >>> 1) ||| ((d1 &&& 1) <<< 4)
            writeCount := 1 } a2 d2).1
        = { m with
              shiftRegister :=
                ((((0:Nat) >>> 1) ||| ((d1 &&& 1) <<< 4)) >>> 1) ||| ((d2 &&& 1) <<< 4)
              writeCount := 2 } := by
      rw [mmc1_write_shift _ a2 d2 hA2 hB2 hD2 (by show (1:Nat) + 1 ≠ 5; decide)]
    have e3 : (mmc1CPUMapWrite
        { m with
            shiftRegister :=
              ((((0:Nat) >>> 1) ||| ((d1 &&& 1) <<< 4)) >>> 1) ||| ((d2 &&& 1) <<< 4)
            writeCount := 2 } a3 d3).1
        = { m with
              shiftRegister :=
                ((((((0:Nat) >>> 1) ||| ((d1 &&& 1) <<< 4)) >>> 1) ||| ((d2 &&& 1) <<< 4)) >>> 1)
                  ||| ((d3 &&& 1) <<< 4)
              writeCount := 3 } := by
      rw [mmc1_write_shift _ a3 d3 hA3 hB3 hD3 (by show (2:Nat) + 1 ≠ 5; decide)]
    have e4 : (mmc1CPUMapWrite
        { m with
            shiftRegister :=
              ((((((0:Nat) >>> 1) ||| ((d1 &&& 1) <<< 4)) >>> 1) ||| ((d2 &&& 1) <<< 4)) >>> 1)
                ||| ((d3 &&& 1) <<< 4)
            writeCount := 3 } a4 d4).1
        = { m with
              shiftRegister :=
                ((((((((0:Nat) >>> 1) ||| ((d1 &&& 1) <<< 4)) >>> 1) ||| ((d2 &&& 1) <<< 4)) >>> 1)
                    ||| ((d3 &&& 1) <<< 4)) >>> 1) ||| ((d4 &&& 1) <<< 4)
              writeCount := 4 } := by
      rw [mmc1_write_shift _ a4 d4 hA4 hB4 hD4 (by show (3:Nat) + 1 ≠ 5; decide)]
    rw [e1, e2, e3, e4,
      mmc1_write_fifth _ a5 d5 hA5 hB5 hD5 rfl]
    have hv := mmc1_shift_value (d1 &&& 1) (d2 &&& 1) (d3 &&& 1) (d4 &&& 1)
      (d5 &&& 1) Nat.and_le_right Nat.and_le_right Nat.and_le_right
      Nat.and_le_right Nat.and_le_right
    have ht : (a5 >>> 13) &&& 3 < 4 := by
      have h := Nat.and_le_right (n := a5 >>> 13) (m := 3)
      omega
    rcases (show (a5 >>> 13) &&& 3 = 0 ∨ (a5 >>> 13) &&& 3 = 1 ∨
        (a5 >>> 13) &&& 3 = 2 ∨ (a5 >>> 13) &&& 3 = 3 by omega)
      with h5 | h5 | h5 | h5 <;> rw [h5]
    · refine ⟨rfl, rfl, hv, ?_⟩
      intro t ht4 htne
      rcases (show t = 1 ∨ t = 2 ∨ t = 3 by omega) with h | h | h <;> subst h <;> rfl
    · refine ⟨rfl, rfl, hv, ?_⟩
      intro t ht4 htne
      rcases (show t = 0 ∨ t = 2 ∨ t = 3 by omega) with h | h | h <;> subst h <;> rfl
    · refine ⟨rfl, rfl, hv, ?_⟩
      intro t ht4 htne
      rcases (show t = 0 ∨ t = 1 ∨ t = 3 by omega) with h | h | h <;> subst h <;> rfl
    · refine ⟨rfl, rfl, ?_, ?_⟩
      · dsimp only
        split_ifs <;> exact hv
      · intro t ht4 htne
        rcases (show t = 0 ∨ t = 1 ∨ t = 2 by omega) with h | h | h <;> subst h <;>
          (dsimp only; split_ifs <;> rfl)

/-- Witness: from the power-on MMC1 state, the run 1,1,1,1,0 (LSB first)
with the fifth write at $E000 (bits 13-14 = 3) loads the PRG-bank register
with 15 and empties the serial interface; a bit-7 write resets. -/
theorem mmc1_serial_shift_witness :
    mmc1Reg ((mmc1CPUMapWrite (mmc1CPUMapWrite (mmc1CPUMapWrite
        (mmc1CPUMapWrite (mmc1CPUMapWrite mmc1ExampleState 0x8000 1).1
        0x8000 1).1 0x8000 1).1 0x8000 1).1 0xE000 0).1)
      ((0xE000 >>> 13) &&& 3) = 15 ∧
    (mmc1CPUMapWrite (mmc1CPUMapWrite (mmc1CPUMapWrite
        (mmc1CPUMapWrite (mmc1CPUMapWrite mmc1ExampleState 0x8000 1).1
        0x8000 1).1 0x8000 1).1 0x8000 1).1 0xE000 0).1.writeCount = 0 ∧
    (mmc1CPUMapWrite mmc1ExampleState 0x8000 0x80).1.control
      = mmc1ExampleState.control ||| 0x0C := by
  obtain ⟨hreset, hwc, hsr, hval, hun⟩ :=
    mmc1_serial_shift_protocol mmc1ExampleState
      0x8000 0x8000 0x8000 0x8000 0xE000 1 1 1 1 0 rfl rfl
      (by decide) (by decide) (by decide) (by decide) (by decide) (by decide)
      (by decide) (by decide) (by decide) (by decide) (by decide) (by decide)
      (by decide) (by decide) (by decide)
  exact ⟨hval.trans (by decide), hwc,
    (hreset 0x8000 0x80 (by decide) (by decide) (by decide)).2.2⟩

/-- C10: the MMC3 IRQ machinery.  (1) A PPU access clocks the IRQ counter
exactly on a rising edge of A12 that follows at least two mapper ticks with
A12 observed low, and then records the new A12 level; (2) on such a clock
the counter reloads from the latch when it is 0 or a reload is pending and
decrements otherwise; (3) starting from no pending IRQ, the clock asserts
the pending IRQ exactly when the resulting counter is 0 with IRQs enabled;
(4) each mapper tick extends the observed-low duration only while A12 was
last seen low; (5) an access with A12 high restarts the low-duration count
at zero. -/
theorem mmc3_a12_debounce_and_irq (m : MMC3State) (addr : Nat)
    (hp : m.irqPending = false) :
    (mmc3CheckA12 m addr
       = mmc3RecordEdge (if mmc3RisingQualified m addr then mmc3ClockIRQ m else m)
           addr) ∧
    ((mmc3ClockIRQ m).irqCounter
       = if m.irqCounter = 0 ∨ m.irqReload then m.irqLatch
         else m.irqCounter - 1) ∧
    ((mmc3ClockIRQ m).irqPending = true ↔
       ((mmc3ClockIRQ m).irqCounter = 0 ∧ m.irqEnabled = true)) ∧
    ((mmc3Clock m).a12Delay
       = if m.lastA12 then m.a12Delay else m.a12Delay + 1) ∧
    ((mmc3CheckA12 m addr).a12Delay = if a12Bit addr then 0 else m.a12Delay) := by
  refine ⟨?_, ?_, ?_, ?_, ?_⟩
  · cases hb : a12Bit addr <;> cases hl : m.lastA12 <;>
      by_cases hd : 2 ≤ m.a12Delay <;>
      simp [mmc3CheckA12, mmc3RecordEdge, mmc3RisingQualified, hb, hl, hd]
  · simp only [mmc3ClockIRQ]
    split_ifs <;> rfl
  · simp only [mmc3ClockIRQ]
    split_ifs with h1 h2 <;> simp_all
  · cases hl : m.lastA12 <;> simp [mmc3Clock, hl]
  · cases hb : a12Bit addr <;> simp [mmc3CheckA12, hb]

/-- Witness for the MMC3 theorem: a read of pattern address $1000 (A12
high) after three low ticks clocks the counter from 1 to 0 and asserts the
pending IRQ. -/
theorem mmc3_a12_debounce_witness :
    (mmc3CheckA12 mmc3ExampleState 0x1000
       = mmc3RecordEdge
           (if mmc3RisingQualified mmc3ExampleState 0x1000 then
              mmc3ClockIRQ mmc3ExampleState
            else mmc3ExampleState) 0x1000) ∧
    ((mmc3ClockIRQ mmc3ExampleState).irqPending = true ↔
       ((mmc3ClockIRQ mmc3ExampleState).irqCounter = 0 ∧
        mmc3ExampleState.irqEnabled = true)) := by
  obtain ⟨h1, _, h3, _, _⟩ := mmc3_a12_debounce_and_irq mmc3ExampleState 0x1000 rfl
  exact ⟨h1, h3⟩

/-- C8 (counterexample to the claim as stated): a 16-byte image with a
valid signature that declares one 16 KiB PRG bank but contains not a single
PRG body byte is accepted by the parser - the claim requires an error
whenever the PRG body present is shorter than the declared size. -/
theorem short_prg_rom_accepted_counterexample :
    shortPRGImage.length = 16 ∧
    inesDeclaredPRGSize shortPRGImage = 16384 ∧
    shortPRGImage.length - 16 = 0 ∧
    exceptOk (parseCartridge shortPRGImage) = true := by
  refine ⟨rfl, by decide, rfl, by decide⟩

/-- C8 (amended): parsing returns an error exactly when the file is
smaller than 16 bytes, the iNES signature is wrong, or the mapper id is
unsupported; a PRG body shorter than the size declared in header byte 4 is
not rejected (the missing bytes read as zero). -/
theorem cartridge_parse_ok_iff (data : List Nat) :
    exceptOk (parseCartridge data) = true ↔
      (16 ≤ data.length ∧ inesMagicOK data ∧ inesMapperSupported data) := by
  unfold parseCartridge
  by_cases h1 : data.length < 16
  · rw [if_pos h1]
    constructor
    · intro h; exact absurd h (by decide)
    · intro h; omega
  · rw [if_neg h1]
    by_cases h2 : inesMagicOK data
    · rw [if_neg (not_not_intro h2)]
      by_cases h3 : inesMapperSupported data
      · rw [if_pos h3]
        exact ⟨fun _ => ⟨by omega, h2, h3⟩, fun _ => rfl⟩
      · rw [if_neg h3]
        constructor
        · intro h; exact absurd h (by decide)
        · intro h; exact absurd h.2.2 h3
    · rw [if_pos h2]
      constructor
      · intro h; exact absurd h (by decide)
      · intro h; exact absurd h.2.1 h2
